import Mathlib

/-!
Verification of the acloud instance-creation pipeline (LGWingEmulator/tools-acloud).

This file shallowly embeds the Python source of the creation pipeline:
  * `create/create_common.py`   (ParseHWPropertyArgs)
  * `create/avd_spec.py`        (AVDSpec._ParseHWPropertyStr, _ProcessImageArgs,
                                 _ProcessLocalImageArgs, _ProcessRemoteBuildArgs,
                                 _GetBuildTarget)
  * `create/create.py`          (GetAvdCreatorClass)
  * `public/actions/common_operations.py` (DevicePool, CreateDevices)
  * `create/local_image_local_instance.py` (LocalImageLocalInstance._CreateAVD)

Python strings are embedded as `List Char`; Python's `str.split` on a
one-character separator is `splitCh`; `str.strip` is `strip`; `str(int)` is
`repr10`; regular expressions over digit strings are embedded as the
executable checks `reInt`, `reRes`, `reGb`.  Fallible Python code returns
`Except`; external collaborators (compute provider, build api, locks) are
passed in as explicit behaviour records, and side effects on them are
returned as explicit traces.
-/

/-- Embedded Python string. -/
abbrev Str := List Char

/-- Coerce a Lean string literal to the embedded representation. -/
def str (s : String) : Str := s.data

/-- Python `s.split(sep)` for a single-character separator `sep`
(`"".split(sep) == [""]`, separators at the ends produce empty items). -/
def splitCh (sep : Char) : Str → List Str
  | [] => [[]]
  | c :: cs =>
    let r := splitCh sep cs
    if c = sep then [] :: r
    else
      match r with
      | [] => [[c]]
      | h :: t => (c :: h) :: t

/-- ASCII whitespace recognised by Python `str.strip` (the source only ever
strips spaces/tabs around hardware keys and values). -/
def isSpaceCh (c : Char) : Bool :=
  c = ' ' || c = '\t' || c = '\n' || c = '\r'

/-- Python `s.strip()`. -/
def strip (s : Str) : Str :=
  ((s.dropWhile isSpaceCh).reverse.dropWhile isSpaceCh).reverse

/-- ASCII decimal digit test (regex `\d` over byte strings). -/
def isDig (c : Char) : Bool :=
  48 ≤ c.toNat && c.toNat ≤ 57

/-- The decimal digit character for a digit value. -/
def dChar : Nat → Char
  | 0 => '0' | 1 => '1' | 2 => '2' | 3 => '3' | 4 => '4'
  | 5 => '5' | 6 => '6' | 7 => '7' | 8 => '8' | _ => '9'

/-- Little-endian decimal digit characters of `n`, with enough fuel. -/
def repr10Aux : Nat → Nat → List Char
  | 0, _ => []
  | _ + 1, 0 => []
  | fuel + 1, n + 1 => dChar ((n + 1) % 10) :: repr10Aux fuel ((n + 1) / 10)

/-- Python `str(n)` for a nonnegative integer `n` (decimal representation). -/
def repr10 (n : Nat) : Str :=
  if n = 0 then ['0'] else (repr10Aux n n).reverse

/-- Python `int(s)` for a string of decimal digits. -/
def natOfDigits (s : Str) : Nat :=
  s.foldl (fun a c => 10 * a + (c.toNat - 48)) 0

/-- Python dict assignment `d[k] = v`: overwrite in place if the key exists,
otherwise append (insertion order is preserved, as in the dicts the source
iterates over). -/
def dictInsert (d : List (Str × Str)) (k v : Str) : List (Str × Str) :=
  match d with
  | [] => [(k, v)]
  | (k', v') :: t => if k' = k then (k, v) :: t else (k', v') :: dictInsert t k v

/-- Python `k in d` for the association-list dict. -/
def dictHasKey (d : List (Str × Str)) (k : Str) : Bool :=
  d.any (fun p => p.1 = k)

/-- Python `d[k]` (defaulting to `[]`; all uses are guarded by `dictHasKey`). -/
def dictGet (d : List (Str × Str)) (k : Str) : Str :=
  match d.find? (fun p => p.1 = k) with
  | some p => p.2
  | none => []

/-- Python truthiness of an optional string argument (`None` and `""` are
falsy). -/
def pyTruthy : Option Str → Bool
  | none => false
  | some s => !s.isEmpty

/- ------------------------------------------------------------------ -/
/- Error taxonomy: the `acloud.errors` classes raised by the embedded
   code (`src/errors.py`), plus the driver-side classes of the missing
   `acloud.public.errors` module, plus Python's built-in `ValueError`
   raised by tuple unpacking.  Message strings are carried verbatim up to
   quoting (quote characters of the source messages are omitted). -/

inductive CreateErr where
  | malformedDictString (msg : Str)
  | invalidHWProperty (msg : Str)
  | getAndroidBuildEnvVar (msg : Str)
  | getBranchFromRepoInfo (msg : Str)
  | unsupportedInstanceImageType (msg : Str)
  | keyError (msg : Str)
  | valueError (msg : Str)
  | otherErr (msg : Str)
  deriving DecidableEq, Repr

/-- Is this the typed malformed-pair error of `ParseHWPropertyArgs`? -/
def CreateErr.isMalformedDictString : CreateErr → Bool
  | .malformedDictString _ => true
  | _ => false

/-- Is this the typed invalid-hardware-property error of
`_ParseHWPropertyStr`? -/
def CreateErr.isInvalidHWProperty : CreateErr → Bool
  | .invalidHWProperty _ => true
  | _ => false

/-- Is this Python's untyped built-in `ValueError` (tuple unpacking)? -/
def CreateErr.isValueError : CreateErr → Bool
  | .valueError _ => true
  | _ => false

instance {ε α : Type} [DecidableEq ε] [DecidableEq α] : DecidableEq (Except ε α) := fun x y =>
  match x, y with
  | .ok a, .ok b =>
    if h : a = b then .isTrue (by rw [h]) else .isFalse (by intro hh; cases hh; exact h rfl)
  | .error a, .error b =>
    if h : a = b then .isTrue (by rw [h]) else .isFalse (by intro hh; cases hh; exact h rfl)
  | .ok _, .error _ => .isFalse (by intro hh; cases hh)
  | .error _, .ok _ => .isFalse (by intro hh; cases hh)

/- ------------------------------------------------------------------ -/
/- create/create_common.py : ParseHWPropertyArgs -/

/-- The loop body list of `ParseHWPropertyArgs`: process the items of
`dict_str.split(",")` in order, accumulating the dict.  For each item:
raise `MalformedDictStringError` when `":" not in item`; destructure
`key, value = item.split(":")` (Python raises `ValueError` when the split
does not have exactly two parts); raise `MalformedDictStringError` when
`not value or not key`; otherwise `hw_dict[key.strip()] = value.strip()`. -/
def parsePairs : List Str → List (Str × Str) → Except CreateErr (List (Str × Str))
  | [], acc => .ok acc
  | item :: rest, acc =>
    if ':' ∈ item then
      match splitCh ':' item with
      | [key, value] =>
        if value.isEmpty || key.isEmpty then
          .error (.malformedDictString
            (str "Missing key or value in " ++ item ++ str ", expecting form of a:b"))
        else
          parsePairs rest (dictInsert acc (strip key) (strip value))
      | _ =>
        .error (.valueError (str "too many values to unpack"))
    else
      .error (.malformedDictString
        (str "Expecting : in " ++ item ++ str " to make a key-val pair"))

/-- `create_common.ParseHWPropertyArgs(dict_str)` with the default
separators `,` and `:`. -/
def ParseHWPropertyArgs (dictStr : Str) : Except CreateErr (List (Str × Str)) :=
  if dictStr.isEmpty then .ok []
  else parsePairs (splitCh ',' dictStr) []

/- ------------------------------------------------------------------ -/
/- create/avd_spec.py : module constants and _ParseHWPropertyStr -/

/-- `constants.HW_ALIAS_CPUS`. -/
def HW_ALIAS_CPUS : Str := str "cpu"
/-- `constants.HW_ALIAS_RESOLUTION`. -/
def HW_ALIAS_RESOLUTION : Str := str "resolution"
/-- `constants.HW_ALIAS_DPI`. -/
def HW_ALIAS_DPI : Str := str "dpi"
/-- `constants.HW_ALIAS_MEMORY`. -/
def HW_ALIAS_MEMORY : Str := str "memory"
/-- `constants.HW_ALIAS_DISK`. -/
def HW_ALIAS_DISK : Str := str "disk"
/-- `avd_spec._X_RES`. -/
def X_RES_KEY : Str := str "x_res"
/-- `avd_spec._Y_RES`. -/
def Y_RES_KEY : Str := str "y_res"

/-- `avd_spec._RE_INT` : `^\d+$`. -/
def reInt (s : Str) : Bool :=
  !s.isEmpty && s.all isDig

/-- `avd_spec._RE_RES` : `^(?P<x_res>\d+)x(?P<y_res>\d+)$`, returning the two
groups on a match.  Splitting on `x` is equivalent to the anchored regex
because `x` is not a digit. -/
def reRes (s : Str) : Option (Str × Str) :=
  match splitCh 'x' s with
  | [a, b] =>
    if !a.isEmpty && a.all isDig && !b.isEmpty && b.all isDig then some (a, b)
    else none
  | _ => none

/-- `avd_spec._RE_GBSIZE` : `^(?P<gb_size>\d+)g$` with `re.IGNORECASE`,
returning the digit group on a match. -/
def reGb (s : Str) : Option Str :=
  match s.reverse with
  | c :: rest =>
    if (c = 'g' || c = 'G') && !rest.isEmpty && rest.all isDig then
      some rest.reverse
    else none
  | [] => none

/-- The loop body of `AVDSpec._ParseHWPropertyStr`: walk the parsed
`hw_dict` items in order building `arg_hw_properties`.  `resolution` values
must match `_RE_RES` and are decomposed into `x_res`/`y_res`; `memory` and
`disk` values must match `_RE_GBSIZE` and are stored as `str(gb * 1024)`;
`cpu` and `dpi` values must match `_RE_INT`; unrecognised keys are skipped. -/
def parseHWItems : List (Str × Str) → List (Str × Str) → Except CreateErr (List (Str × Str))
  | [], acc => .ok acc
  | (key, value) :: rest, acc =>
    if key = HW_ALIAS_RESOLUTION then
      match reRes value with
      | some (x, y) =>
        parseHWItems rest (dictInsert (dictInsert acc X_RES_KEY x) Y_RES_KEY y)
      | none =>
        .error (.invalidHWProperty
          (str "[" ++ value ++ str "] is an invalid resolution. Example:1280x800"))
    else if key = HW_ALIAS_MEMORY || key = HW_ALIAS_DISK then
      match reGb value with
      | some gb =>
        parseHWItems rest (dictInsert acc key (repr10 (natOfDigits gb * 1024)))
      | none =>
        .error (.invalidHWProperty
          (str "Expected gb size.[" ++ value ++ str "] is not allowed. Example:4g"))
    else if key = HW_ALIAS_CPUS || key = HW_ALIAS_DPI then
      if reInt value then
        parseHWItems rest (dictInsert acc key value)
      else
        .error (.invalidHWProperty
          (key ++ str " value [" ++ value ++ str "] is not an integer."))
    else
      parseHWItems rest acc

/-- `AVDSpec._ParseHWPropertyStr(hw_property_str)`: parse the raw string
into a dict with `create_common.ParseHWPropertyArgs`, then validate and
normalise the recognised keys. -/
def ParseHWPropertyStr (s : Str) : Except CreateErr (List (Str × Str)) :=
  match ParseHWPropertyArgs s with
  | .error e => .error e
  | .ok hwDict => parseHWItems hwDict []

example : ParseHWPropertyArgs (str "cpu:2,dpi:240,resolution:1280x800") =
    .ok [(str "cpu", str "2"), (str "dpi", str "240"),
         (str "resolution", str "1280x800")] := by decide

example : ParseHWPropertyStr (str "cpu:2,resolution:1280x800,memory:4g") =
    .ok [(str "cpu", str "2"), (str "x_res", str "1280"), (str "y_res", str "800"),
         (str "memory", str "4096")] := by decide

example : ParseHWPropertyStr (str "cpu:0") = .ok [(str "cpu", str "0")] := by decide

example : ParseHWPropertyArgs (str "cpu:2:3") =
    .error (.valueError (str "too many values to unpack")) := by decide

/- ------------------------------------------------------------------ -/
/- create/avd_spec.py : _ProcessImageArgs / _ProcessLocalImageArgs /
   _ProcessRemoteBuildArgs / _GetBuildTarget -/

/-- `constants.IMAGE_SRC_REMOTE`. -/
def IMAGE_SRC_REMOTE : Str := str "remote_image"
/-- `constants.IMAGE_SRC_LOCAL`. -/
def IMAGE_SRC_LOCAL : Str := str "local_image"
/-- `constants.INSTANCE_TYPE_REMOTE`. -/
def INSTANCE_TYPE_REMOTE : Str := str "remote"
/-- `constants.INSTANCE_TYPE_LOCAL`. -/
def INSTANCE_TYPE_LOCAL : Str := str "local"

/-- Python `re.split("-|_", s)`: split on every `-` or `_`. -/
def splitDashUnd : Str → List Str
  | [] => [[]]
  | c :: cs =>
    let r := splitDashUnd cs
    if c = '-' || c = '_' then [] :: r
    else
      match r with
      | [] => [[c]]
      | h :: t => (c :: h) :: t

/-- `constants.AVD_TYPES_MAPPING` as an association list. -/
def AVD_TYPES_MAPPING : List (Str × Str) :=
  [(str "gce", str "gce"), (str "cuttlefish", str "cf"), (str "goldfish", str "sdk")]

/-- `avd_spec._BRANCH_TARGET_PREFIX.get(branch, "")`. -/
def branchTargetPre (tok : Str) : Str :=
  if tok = str "aosp" then str "aosp_" else []

/-- `AVDSpec._GetBuildTarget(args)`: synthesize a build target from the
resolved branch's leading token, the avd type and the flavor, per
`"%s%s_%s_%s-%s" % (prefix, avd_type_token, "x86", flavor, "userdebug")`.
An avd type outside `AVD_TYPES_MAPPING` raises Python's `KeyError`. -/
def GetBuildTarget (avdType flavor branch : Str) : Except CreateErr Str :=
  let tok := (splitDashUnd branch).headD []
  match AVD_TYPES_MAPPING.find? (fun p => p.1 = avdType) with
  | none => .error (.keyError avdType)
  | some p =>
    .ok (branchTargetPre tok ++ p.2 ++ str "_" ++ str "x86" ++ str "_" ++
         flavor ++ str "-" ++ str "userdebug")

/-- The user-supplied creation arguments consumed by the image-resolution
steps.  `none` is Python `None`; `some []` is the empty string (the
argparse default of `--local-image`). -/
structure SpecArgs where
  local_image : Option Str
  branch : Option Str
  build_target : Option Str
  build_id : Option Str
  avd_type : Str
  flavor : Str

/-- External collaborators used during image resolution: the branch lookup
(`repo info` + `git remote`, wrapped by `_GetBranchFromRepo`), the build
api's LKGB lookup, and the `ANDROID_PRODUCT_OUT` environment variable. -/
structure BuildCollab where
  getBranchFromRepo : Except CreateErr Str
  getLKGB : Str → Str → Except CreateErr Str
  envAndroidProductOut : Option Str

/-- Calls made to the inference collaborators, in order. -/
inductive BuildCall where
  | repoInfo
  | lkgb (target branch : Str)
  deriving DecidableEq, Repr

/-- `self._remote_image` after `_ProcessRemoteBuildArgs`. -/
structure RemoteImage where
  build_branch : Str
  build_target : Str
  build_id : Str
  deriving DecidableEq, Repr

/-- `AVDSpec._ProcessRemoteBuildArgs(args)`: resolve branch, then build
target, then build id, each inferred only when the user value is falsy.
The second component records the collaborator calls made. -/
def ProcessRemoteBuildArgs (args : SpecArgs) (collab : BuildCollab) :
    Except CreateErr RemoteImage × List BuildCall :=
  let branchStep : Except CreateErr Str × List BuildCall :=
    if pyTruthy args.branch then (.ok (args.branch.getD []), [])
    else (collab.getBranchFromRepo, [.repoInfo])
  match branchStep with
  | (.error e, calls) => (.error e, calls)
  | (.ok branch, calls) =>
    let targetStep : Except CreateErr Str :=
      if pyTruthy args.build_target then .ok (args.build_target.getD [])
      else GetBuildTarget args.avd_type args.flavor branch
    match targetStep with
    | .error e => (.error e, calls)
    | .ok target =>
      if pyTruthy args.build_id then
        (.ok ⟨branch, target, args.build_id.getD []⟩, calls)
      else
        match collab.getLKGB target branch with
        | .error e => (.error e, calls ++ [.lkgb target branch])
        | .ok bid => (.ok ⟨branch, target, bid⟩, calls ++ [.lkgb target branch])

/-- `AVDSpec._ProcessLocalImageArgs(args)`: a truthy `--local-image` value
is used as the image dir; otherwise fall back to `ANDROID_PRODUCT_OUT`,
raising `GetAndroidBuildEnvVarError` when the variable is unset. -/
def ProcessLocalImageArgs (localImage : Option Str) (envOut : Option Str) :
    Except CreateErr Str :=
  if pyTruthy localImage then .ok (localImage.getD [])
  else
    match envOut with
    | some v => .ok v
    | none => .error (.getAndroidBuildEnvVar
        (str "Could not get environment var: ANDROID_PRODUCT_OUT"))

/-- The image-related fields of the constructed `AVDSpec` (all initialised
to `None` in `__init__`). -/
structure ImageState where
  image_source : Str
  local_image_dir : Option Str
  remote_image : Option RemoteImage
  deriving DecidableEq, Repr

/-- `AVDSpec._ProcessImageArgs(args)`: `args.local_image == ""` selects the
remote-image path (`_ProcessRemoteBuildArgs`), anything else (a `None`
sentinel or a user path) selects the local-image path
(`_ProcessLocalImageArgs`). -/
def ProcessImageArgs (args : SpecArgs) (collab : BuildCollab) :
    Except CreateErr ImageState × List BuildCall :=
  if args.local_image = some [] then
    match ProcessRemoteBuildArgs args collab with
    | (.error e, calls) => (.error e, calls)
    | (.ok ri, calls) => (.ok ⟨IMAGE_SRC_REMOTE, none, some ri⟩, calls)
  else
    match ProcessLocalImageArgs args.local_image collab.envAndroidProductOut with
    | .error e => (.error e, [])
    | .ok dir => (.ok ⟨IMAGE_SRC_LOCAL, some dir, none⟩, [])

/- ------------------------------------------------------------------ -/
/- create/create.py : GetAvdCreatorClass -/

/-- The four concrete creator classes returned by `GetAvdCreatorClass`. -/
inductive CreatorClass where
  | localImageRemoteInstance
  | localImageLocalInstance
  | remoteImageRemoteInstance
  | remoteImageLocalInstance
  deriving DecidableEq, Repr

/-- `create.GetAvdCreatorClass(instance_type, image_source)`: a pure
four-entry dispatch on the two string-valued enums, raising
`UnsupportedInstanceImageType` for any other combination. -/
def GetAvdCreatorClass (instanceType imageSource : Str) : Except CreateErr CreatorClass :=
  if instanceType = INSTANCE_TYPE_REMOTE ∧ imageSource = IMAGE_SRC_LOCAL then
    .ok .localImageRemoteInstance
  else if instanceType = INSTANCE_TYPE_LOCAL ∧ imageSource = IMAGE_SRC_LOCAL then
    .ok .localImageLocalInstance
  else if instanceType = INSTANCE_TYPE_REMOTE ∧ imageSource = IMAGE_SRC_REMOTE then
    .ok .remoteImageRemoteInstance
  else if instanceType = INSTANCE_TYPE_LOCAL ∧ imageSource = IMAGE_SRC_REMOTE then
    .ok .remoteImageLocalInstance
  else
    .error (.unsupportedInstanceImageType
      (str "unsupported creation of instance type: " ++ instanceType ++
       str ", image source: " ++ imageSource))

/- ------------------------------------------------------------------ -/
/- public/actions/common_operations.py : DevicePool and CreateDevices -/

/-- The internal/external address pair returned by
`compute_client.GetInstanceIP`. -/
structure IPAddrs where
  internal : Str
  external : Str
  deriving DecidableEq, Repr

/-- Modelled from the spec: the `acloud.public.avd` module is absent from
src; §3 describes the per-device record as the tracked `(instance_name, ip)`
pair, which is all `common_operations` reads from it. -/
structure AndroidVirtualDevice where
  ip : IPAddrs
  instance_name : Str
  deriving DecidableEq, Repr

/-- Modelled from the spec: `acloud.public.report` is absent from src.
§3 gives the Report statuses `{SUCCESS, BOOT_FAIL, FAIL}`; `unset` is the
state before any `SetStatus` call. -/
inductive Status where
  | SUCCESS
  | BOOT_FAIL
  | FAIL
  | unset
  deriving DecidableEq, Repr

/-- The per-device dict written by `CreateDevices`
(`{"ip": ..., "instance_name": ...}`). -/
structure DeviceData where
  ip : Str
  instance_name : Str
  deriving DecidableEq, Repr

/-- Modelled from the spec: `acloud.public.report` is absent from src.  §3:
a Report has a command name, a status, ordered per-device data sequences
and a sequence of top-level error strings; `AddData(key, value)` appends
`value` under `key` (kept here as an ordered `(key, value)` list, as the
driver's test `common_operations_test.py` observes it), `AddError` appends
an error string, `SetStatus` overwrites the status. -/
structure Report where
  command : Str
  status : Status
  data : List (Str × DeviceData)
  errors : List Str
  deriving DecidableEq, Repr

/-- `Report.AddData(key=key, value=value)`. -/
def Report.addData (r : Report) (key : Str) (value : DeviceData) : Report :=
  { r with data := r.data ++ [(key, value)] }

/-- `Report.AddError(error)`. -/
def Report.addError (r : Report) (e : Str) : Report :=
  { r with errors := r.errors ++ [e] }

/-- `Report.SetStatus(status)`. -/
def Report.setStatus (r : Report) (s : Status) : Report :=
  { r with status := s }

/-- The sequence of device records the report holds under one data key. -/
def Report.dataAt (r : Report) (key : Str) : List DeviceData :=
  (r.data.filter (fun p => p.1 = key)).map (fun p => p.2)

/-- The behaviour of the device factory and its compute client, as
`common_operations` consumes them: the outcome of the i-th
`CreateInstance()` call (an instance name, or a raised `DriverError`
message), the `GetInstanceIP` lookup, and the outcome of
`WaitForBoot(instance_name)` (`some msg` is a raised `DeviceBootError`). -/
structure Factory where
  create : Nat → Except Str Str
  getIP : Str → IPAddrs
  waitForBoot : Str → Option Str

/-- The loop of `DevicePool.CreateDevices(num)` over the index list,
also returning the indices for which `CreateInstance()` was invoked.
An exception aborts the loop and propagates. -/
def poolCreateAux (f : Factory) : List Nat → List AndroidVirtualDevice →
    Except Str (List AndroidVirtualDevice) × List Nat
  | [], acc => (.ok acc, [])
  | i :: rest, acc =>
    match f.create i with
    | .error e => (.error e, [i])
    | .ok name =>
      let (res, tr) := poolCreateAux f rest (acc ++ [⟨f.getIP name, name⟩])
      (res, i :: tr)

/-- `DevicePool.CreateDevices(num)` starting from an empty pool, paired
with the list of attempted creation indices. -/
def DevicePool.createDevices (f : Factory) (num : Nat) :
    Except Str (List AndroidVirtualDevice) × List Nat :=
  poolCreateAux f (List.range num) []

/-- `DevicePool.WaitForBoot()`: wait on every device in pool order,
collecting `instance_name -> DeviceBootError` for each boot failure;
a failure never stops the remaining waits. -/
def DevicePool.waitForBoot (f : Factory) (devices : List AndroidVirtualDevice) :
    List (Str × Str) :=
  devices.foldl
    (fun fails d =>
      match f.waitForBoot d.instance_name with
      | none => fails
      | some e => dictInsert fails d.instance_name e)
    []

/-- The per-device report-writing step of `common_operations.CreateDevices`. -/
def reportDevice (reportInternalIp : Bool) (fails : List (Str × Str))
    (r : Report) (d : AndroidVirtualDevice) : Report :=
  let dd : DeviceData :=
    ⟨if reportInternalIp then d.ip.internal else d.ip.external, d.instance_name⟩
  if dictHasKey fails d.instance_name then
    (r.addData (str "devices_failing_boot") dd).addError (dictGet fails d.instance_name)
  else
    r.addData (str "devices") dd

/-- `common_operations.CreateDevices(command, cfg, device_factory, num,
report_internal_ip)`.  `sshSetup` is the outcome of
`CreateSshKeyPairIfNecessary(cfg)` (`.error` = raised `DriverError`).
Any `DriverError` raised inside the `try` block is converted to a
top-level report error with status `FAIL`.  The second component is the
list of creation indices for which `CreateInstance()` was invoked. -/
def CreateDevices (command : Str) (sshSetup : Except Str Unit) (f : Factory)
    (num : Nat) (reportInternalIp : Bool) : Report × List Nat :=
  let r0 : Report := ⟨command, .unset, [], []⟩
  match sshSetup with
  | .error e => ((r0.addError e).setStatus .FAIL, [])
  | .ok _ =>
    match DevicePool.createDevices f num with
    | (.error e, tr) => ((r0.addError e).setStatus .FAIL, tr)
    | (.ok devices, tr) =>
      let failures := DevicePool.waitForBoot f devices
      let r1 := r0.setStatus (if failures.isEmpty then .SUCCESS else .BOOT_FAIL)
      (devices.foldl (reportDevice reportInternalIp failures) r1, tr)

/- ------------------------------------------------------------------ -/
/- create/local_image_local_instance.py : _CreateAVD -/

/-- `_MAX_INSTANCE_ID`. -/
def MAX_INSTANCE_ID : Nat := 10

/-- `_INSTANCES_IN_USE_MSG`. -/
def INSTANCES_IN_USE_MSG : Str :=
  str "All instances are in use. Try resetting an instance by specifying --local-instance and an id between 1 and 10."

/-- Operations performed on local instance-id locks and the report, in
order.  `reportCreated` marks `_CreateInstance` returning its Report. -/
inductive LockEv where
  | lock (id : Nat)
  | lockIfNotInUse (id : Nat)
  | setInUse (id : Nat) (b : Bool)
  | unlock (id : Nat)
  | reportCreated
  deriving DecidableEq, Repr

/-- How `_CreateAVD` terminates: returning a Report, exiting via
`sys.exit(constants.EXIT_BY_USER)`, or propagating an exception. -/
inductive AvdOutcome where
  | report (r : Report)
  | sysExit
  | exception (e : Str)
  deriving DecidableEq, Repr

/-- The environment `_CreateAVD` runs against: platform support, the
image-artifact lookup (which may raise before any lock is taken), the
requested instance id (`0` = unset, falsy), the lock behaviours, the
`_CheckRunningCvd` answer and the `_CreateInstance` outcome. -/
structure LocalAvdEnv where
  platformSupported : Bool
  getImageArtifacts : Except Str (Str × Str)
  localInstanceId : Nat
  lockAcquire : Nat → Bool
  lockIfNotInUse : Nat → Bool
  checkRunningCvd : Bool
  createInstance : Except Str Report

/-- The auto-selection scan of `_CreateAVD`: try
`LockIfNotInUse(timeout_secs=0)` on each candidate id in order, stopping at
the first success. -/
def scanIds (env : LocalAvdEnv) : List Nat → Option Nat × List LockEv
  | [] => (none, [])
  | i :: rest =>
    if env.lockIfNotInUse i then (some i, [.lockIfNotInUse i])
    else
      let (r, tr) := scanIds env rest
      (r, .lockIfNotInUse i :: tr)

/-- The `try`/`finally` body of `_CreateAVD` once lock `id` is held:
a declined relaunch marks the lock in-use and exits; a `_CreateInstance`
exception propagates; a returned Report is followed by `SetInUse(True)`;
the `finally` block always runs `Unlock()`. -/
def createAvdBody (env : LocalAvdEnv) (id : Nat) (tr0 : List LockEv) :
    AvdOutcome × List LockEv :=
  if !env.checkRunningCvd then
    (.sysExit, tr0 ++ [.setInUse id true, .unlock id])
  else
    match env.createInstance with
    | .error e => (.exception e, tr0 ++ [.unlock id])
    | .ok rep => (.report rep, tr0 ++ [.reportCreated, .setInUse id true, .unlock id])

/-- `LocalImageLocalInstance._CreateAVD(avd_spec, no_prompts)`, returning
the outcome together with the ordered trace of lock operations. -/
def CreateAVDLocal (env : LocalAvdEnv) : AvdOutcome × List LockEv :=
  if !env.platformSupported then
    (.report (Report.setStatus ⟨str "create", .unset, [], []⟩ .FAIL), [])
  else
    match env.getImageArtifacts with
    | .error e => (.exception e, [])
    | .ok _ =>
      if env.localInstanceId ≠ 0 then
        if env.lockAcquire env.localInstanceId then
          createAvdBody env env.localInstanceId [.lock env.localInstanceId]
        else
          (.report (Report.setStatus
            (Report.addError ⟨str "create", .unset, [], []⟩
              (str "Instance " ++ repr10 env.localInstanceId ++
               str " is locked by another process.")) .FAIL),
           [.lock env.localInstanceId])
      else
        match scanIds env (List.range' 1 MAX_INSTANCE_ID) with
        | (some id, tr) => createAvdBody env id tr
        | (none, tr) =>
          (.report (Report.setStatus
            (Report.addError ⟨str "create", .unset, [], []⟩ INSTANCES_IN_USE_MSG)
            .FAIL), tr)

/- ------------------------------------------------------------------ -/
/- Utility lemmas about the embedded string operations. -/

theorem splitCh_ne_nil (sep : Char) : ∀ l : Str, splitCh sep l ≠ []
  | [] => by simp [splitCh]
  | c :: cs => by
    rw [splitCh]
    split
    · simp
    · cases hsp : splitCh sep cs with
      | nil => exact absurd hsp (splitCh_ne_nil sep cs)
      | cons a b => simp [hsp]

theorem splitCh_no_sep {sep : Char} : ∀ {a : Str}, sep ∉ a → splitCh sep a = [a]
  | [], _ => rfl
  | c :: cs, h => by
    rw [splitCh]
    have hc : ¬(c = sep) := fun hh => h (hh ▸ List.mem_cons_self c cs)
    rw [if_neg hc, splitCh_no_sep (fun hm => h (List.mem_cons_of_mem c hm))]

theorem splitCh_append {sep : Char} : ∀ {a : Str} (rest : Str), sep ∉ a →
    splitCh sep (a ++ sep :: rest) = a :: splitCh sep rest
  | [], rest, _ => by
    rw [List.nil_append, splitCh]
    simp
  | c :: cs, rest, h => by
    rw [List.cons_append, splitCh]
    have hc : ¬(c = sep) := fun hh => h (hh ▸ List.mem_cons_self c cs)
    rw [if_neg hc, splitCh_append rest (fun hm => h (List.mem_cons_of_mem c hm))]

theorem splitCh_length (sep : Char) : ∀ l : Str, (splitCh sep l).length = l.count sep + 1
  | [] => by simp [splitCh]
  | c :: cs => by
    rw [splitCh]
    by_cases hc : c = sep
    · rw [if_pos hc, List.length_cons, splitCh_length sep cs]
      subst hc
      rw [List.count_cons_self]
    · rw [if_neg hc]
      cases hsp : splitCh sep cs with
      | nil => exact absurd hsp (splitCh_ne_nil sep cs)
      | cons a b =>
        have := splitCh_length sep cs
        rw [hsp] at this
        simp only [List.length_cons] at this ⊢
        rw [List.count_cons_of_ne (Ne.symm hc), this]

theorem dropWhile_eq_self_of_none {p : Char → Bool} :
    ∀ {l : Str}, (∀ c ∈ l, p c = false) → l.dropWhile p = l
  | [], _ => rfl
  | c :: cs, h => by
    rw [List.dropWhile_cons, h c (List.mem_cons_self c cs)]
    simp

theorem strip_no_space {s : Str} (h : ∀ c ∈ s, isSpaceCh c = false) : strip s = s := by
  unfold strip
  rw [dropWhile_eq_self_of_none h]
  rw [dropWhile_eq_self_of_none (fun c hc => h c (List.mem_reverse.mp hc))]
  exact List.reverse_reverse s

theorem repr10Aux_eq_digits : ∀ (fuel n : Nat), n ≤ fuel →
    repr10Aux fuel n = (Nat.digits 10 n).map dChar := by
  intro fuel
  induction fuel with
  | zero =>
    intro n hn
    interval_cases n
    simp [repr10Aux]
  | succ f ih =>
    intro n hn
    match n with
    | 0 => simp [repr10Aux]
    | m + 1 =>
      rw [repr10Aux, Nat.digits_def' (by norm_num : (1:Nat) < 10) (Nat.succ_pos m),
        List.map_cons]
      congr 1
      refine ih _ ?_
      have := Nat.div_lt_self (Nat.succ_pos m) (by norm_num : (1:Nat) < 10)
      omega

theorem repr10_eq (n : Nat) :
    repr10 n = if n = 0 then ['0'] else ((Nat.digits 10 n).map dChar).reverse := by
  unfold repr10
  split
  · rfl
  · rw [repr10Aux_eq_digits n n le_rfl]

theorem mem_repr10_isDig {c : Char} {n : Nat} (h : c ∈ repr10 n) : isDig c = true := by
  rw [repr10_eq] at h
  split at h
  · rw [List.mem_singleton] at h
    subst h
    decide
  · rw [List.mem_reverse, List.mem_map] at h
    obtain ⟨d, hd, rfl⟩ := h
    have hlt : d < 10 := Nat.digits_lt_base (by norm_num) hd
    interval_cases d <;> decide

theorem not_mem_repr10 {c : Char} (hc : isDig c = false) (n : Nat) : c ∉ repr10 n :=
  fun hm => by rw [mem_repr10_isDig hm] at hc; cases hc

theorem repr10_ne_nil (n : Nat) : repr10 n ≠ [] := by
  rw [repr10_eq]
  split
  · simp
  · simp only [ne_eq, List.reverse_eq_nil_iff, List.map_eq_nil_iff]
    exact Nat.digits_ne_nil_iff_ne_zero.mpr (by assumption)

theorem isEmpty_repr10 (n : Nat) : (repr10 n).isEmpty = false := by
  cases h : repr10 n with
  | nil => exact absurd h (repr10_ne_nil n)
  | cons a b => rfl

theorem all_isDig_repr10 (n : Nat) : (repr10 n).all isDig = true := by
  rw [List.all_eq_true]
  exact fun c hc => mem_repr10_isDig hc

theorem foldl_digits_val : ∀ (ds : List Nat), (∀ d ∈ ds, d < 10) → ∀ acc : Nat,
    ((ds.map dChar).reverse).foldl (fun a c => 10 * a + (c.toNat - 48)) acc
      = acc * 10 ^ ds.length + Nat.ofDigits 10 ds := by
  intro ds
  induction ds with
  | nil => intro _ acc; simp [Nat.ofDigits]
  | cons d t ih =>
    intro hlt acc
    simp only [List.map_cons, List.reverse_cons, List.foldl_append, List.foldl_cons,
      List.foldl_nil]
    rw [ih (fun x hx => hlt x (List.mem_cons_of_mem _ hx)) acc]
    have hd : d < 10 := hlt d (List.mem_cons_self d t)
    have hchar : (dChar d).toNat - 48 = d := by interval_cases d <;> rfl
    rw [hchar, Nat.ofDigits_cons, List.length_cons, pow_succ]
    ring

theorem natOfDigits_repr10 (n : Nat) : natOfDigits (repr10 n) = n := by
  rw [repr10_eq]
  unfold natOfDigits
  split
  · subst n
    decide
  · rw [foldl_digits_val (Nat.digits 10 n) (fun d hd => Nat.digits_lt_base (by norm_num) hd) 0]
    simp [Nat.ofDigits_digits]

theorem notSpace_of_isDig {c : Char} (h : isDig c = true) : isSpaceCh c = false := by
  unfold isSpaceCh
  by_cases h1 : c = ' '
  · subst h1; exact absurd h (by decide)
  by_cases h2 : c = '\t'
  · subst h2; exact absurd h (by decide)
  by_cases h3 : c = '\n'
  · subst h3; exact absurd h (by decide)
  by_cases h4 : c = '\r'
  · subst h4; exact absurd h (by decide)
  simp [h1, h2, h3, h4]

theorem strip_repr10 (n : Nat) : strip (repr10 n) = repr10 n :=
  strip_no_space (fun _ hc => notSpace_of_isDig (mem_repr10_isDig hc))

theorem reInt_repr10 (n : Nat) : reInt (repr10 n) = true := by
  unfold reInt
  rw [isEmpty_repr10, all_isDig_repr10]
  rfl

theorem reRes_repr10 (w h : Nat) :
    reRes (repr10 w ++ 'x' :: repr10 h) = some (repr10 w, repr10 h) := by
  unfold reRes
  rw [splitCh_append _ (not_mem_repr10 (by decide) w),
    splitCh_no_sep (not_mem_repr10 (by decide) h)]
  show (if (!(repr10 w).isEmpty && (repr10 w).all isDig &&
            !(repr10 h).isEmpty && (repr10 h).all isDig) = true
        then some (repr10 w, repr10 h) else none) = some (repr10 w, repr10 h)
  rw [isEmpty_repr10, all_isDig_repr10, isEmpty_repr10, all_isDig_repr10]
  rfl

theorem reGb_repr10 (m : Nat) : reGb (repr10 m ++ ['g']) = some (repr10 m) := by
  unfold reGb
  rw [List.reverse_append]
  simp only [List.reverse_cons, List.reverse_nil, List.nil_append, List.singleton_append]
  have h1 : (repr10 m).reverse.isEmpty = false := by
    cases hr : (repr10 m).reverse with
    | nil => exact absurd (List.reverse_eq_nil_iff.mp hr) (repr10_ne_nil m)
    | cons a b => rfl
  have h2 : (repr10 m).reverse.all isDig = true := by
    rw [List.all_eq_true]
    exact fun c hc => mem_repr10_isDig (List.mem_reverse.mp hc)
  rw [h1, h2]
  simp [List.reverse_reverse]

/-- A well-formed `key:value` item. -/
def itemKV (k v : Str) : Str := k ++ ':' :: v

theorem splitCh_itemKV {k v : Str} (hk : ':' ∉ k) (hv : ':' ∉ v) :
    splitCh ':' (itemKV k v) = [k, v] := by
  unfold itemKV
  rw [splitCh_append _ hk, splitCh_no_sep hv]

theorem colon_mem_itemKV (k v : Str) : ':' ∈ itemKV k v := by
  unfold itemKV
  rw [List.mem_append]
  exact Or.inr (List.mem_cons_self _ _)

theorem dictInsert_not_mem : ∀ {d : List (Str × Str)} (k v : Str),
    (∀ p ∈ d, p.1 ≠ k) → dictInsert d k v = d ++ [(k, v)]
  | [], k, v, _ => rfl
  | (k', v') :: t, k, v, h => by
    rw [dictInsert]
    rw [if_neg (h (k', v') (List.mem_cons_self _ _))]
    rw [dictInsert_not_mem k v (fun p hp => h p (List.mem_cons_of_mem _ hp))]
    rfl

theorem dictInsert_ne_nil (d : List (Str × Str)) (k v : Str) : dictInsert d k v ≠ [] := by
  cases d with
  | nil => simp [dictInsert]
  | cons p t =>
    rw [dictInsert]
    split <;> simp

theorem dictHasKey_insert (d : List (Str × Str)) (k v k' : Str) :
    dictHasKey (dictInsert d k v) k' = (dictHasKey d k' || k = k') := by
  induction d with
  | nil => simp [dictInsert, dictHasKey]
  | cons p t ih =>
    rw [dictInsert]
    by_cases hp : p.1 = k
    · rw [if_pos hp]
      simp only [dictHasKey, List.any_cons] at ih ⊢
      rw [hp]
      cases hd : decide (k = k') <;>
        cases ha : t.any (fun q => decide (q.1 = k')) <;> simp_all
    · rw [if_neg hp]
      simp only [dictHasKey, List.any_cons] at ih ⊢
      rw [ih]
      cases hd : decide (p.1 = k') <;> simp [Bool.or_assoc]

theorem dictGet_all_same : ∀ (d : List (Str × Str)) (k e : Str),
    (∀ p ∈ d, p.1 = k → p.2 = e) → dictHasKey d k = true → dictGet d k = e
  | [], k, e, _, hk => by simp [dictHasKey] at hk
  | p :: t, k, e, h, hk => by
    rw [dictGet, List.find?]
    by_cases hp : p.1 = k
    · rw [decide_eq_true hp]
      exact h p (List.mem_cons_self _ _) hp
    · rw [decide_eq_false hp]
      have ht : dictHasKey t k = true := by
        simp only [dictHasKey, List.any_cons, decide_eq_true_eq] at hk
        rcases Bool.or_eq_true_iff.mp hk with h1 | h1
        · exact absurd (of_decide_eq_true h1) hp
        · exact h1
      have := dictGet_all_same t k e (fun q hq => h q (List.mem_cons_of_mem _ hq)) ht
      rw [dictGet] at this
      exact this

theorem dictGet_not_hasKey (d : List (Str × Str)) (k : Str)
    (h : dictHasKey d k = false) : dictGet d k = [] := by
  rw [dictGet]
  cases hf : d.find? (fun p => p.1 = k) with
  | none => rfl
  | some p =>
    have hp := List.find?_some hf
    have hmem := List.mem_of_find?_eq_some hf
    simp only [dictHasKey] at h
    rw [List.any_eq_false] at h
    exact absurd hp (h p hmem)

theorem isEmpty_false_of_ne_nil {α : Type} {l : List α} (h : l ≠ []) : l.isEmpty = false := by
  cases l with
  | nil => exact absurd rfl h
  | cons a b => rfl

theorem isEmpty_true_of_eq_nil {l : Str} (h : l = []) : l.isEmpty = true := by
  subst h
  rfl

theorem itemKV_ne_nil (k v : Str) : itemKV k v ≠ [] := by
  simp [itemKV]

theorem not_mem_itemKV {c : Char} {k v : Str} (hc : c ≠ ':') (hk : c ∉ k) (hv : c ∉ v) :
    c ∉ itemKV k v := by
  unfold itemKV
  rw [List.mem_append, List.mem_cons]
  rintro (h | h | h)
  · exact hk h
  · exact hc h
  · exact hv h

theorem parsePairs_cons_noColon {item : Str} (h : ':' ∉ item) (rest : List Str)
    (acc : List (Str × Str)) :
    parsePairs (item :: rest) acc = .error (.malformedDictString
      (str "Expecting : in " ++ item ++ str " to make a key-val pair")) := by
  rw [parsePairs, if_neg h]

theorem parsePairs_cons_ok {k v : Str} (hk : ':' ∉ k) (hv : ':' ∉ v)
    (hk0 : k ≠ []) (hv0 : v ≠ []) (rest : List Str) (acc : List (Str × Str)) :
    parsePairs (itemKV k v :: rest) acc =
      parsePairs rest (dictInsert acc (strip k) (strip v)) := by
  rw [parsePairs, if_pos (colon_mem_itemKV k v), splitCh_itemKV hk hv]
  show (if (v.isEmpty || k.isEmpty) = true then _ else
    parsePairs rest (dictInsert acc (strip k) (strip v))) = _
  rw [isEmpty_false_of_ne_nil hv0, isEmpty_false_of_ne_nil hk0]
  rfl

theorem parsePairs_cons_emptySide {item k v : Str} (hcolon : ':' ∈ item)
    (hsplit : splitCh ':' item = [k, v]) (he : v = [] ∨ k = [])
    (rest : List Str) (acc : List (Str × Str)) :
    parsePairs (item :: rest) acc = .error (.malformedDictString
      (str "Missing key or value in " ++ item ++ str ", expecting form of a:b")) := by
  rw [parsePairs, if_pos hcolon, hsplit]
  show (if (v.isEmpty || k.isEmpty) = true then _ else _) = _
  rcases he with he | he
  · rw [isEmpty_true_of_eq_nil he]
    rw [Bool.true_or]
    rfl
  · rw [isEmpty_true_of_eq_nil he]
    rw [Bool.or_true]
    rfl

theorem parsePairs_cons_unpack {item : Str} (hcolon : ':' ∈ item)
    (hlen : 3 ≤ (splitCh ':' item).length) (rest : List Str) (acc : List (Str × Str)) :
    parsePairs (item :: rest) acc =
      .error (.valueError (str "too many values to unpack")) := by
  rw [parsePairs, if_pos hcolon]
  rcases hs : splitCh ':' item with _ | ⟨a, _ | ⟨b, _ | ⟨c, t⟩⟩⟩
  · rw [hs] at hlen
  · rw [hs] at hlen
  · rw [hs] at hlen; simp at hlen
  · rfl

theorem dictInsert_nil (k v : Str) : dictInsert [] k v = [(k, v)] := rfl

theorem dictInsert_cons_ne {k' k : Str} (h : k' ≠ k) (v' v : Str) (t : List (Str × Str)) :
    dictInsert ((k', v') :: t) k v = (k', v') :: dictInsert t k v := by
  rw [dictInsert, if_neg h]

theorem not_mem_resVal {c : Char} (hc1 : isDig c = false) (hc2 : c ≠ 'x') (w h : Nat) :
    c ∉ repr10 w ++ 'x' :: repr10 h := by
  rw [List.mem_append, List.mem_cons]
  rintro (h1 | h1 | h1)
  · have := mem_repr10_isDig h1
    rw [hc1] at this
    exact Bool.false_ne_true this
  · exact hc2 h1
  · have := mem_repr10_isDig h1
    rw [hc1] at this
    exact Bool.false_ne_true this

theorem not_mem_gbVal {c : Char} (hc1 : isDig c = false) (hc2 : c ≠ 'g') (m : Nat) :
    c ∉ repr10 m ++ ['g'] := by
  rw [List.mem_append, List.mem_singleton]
  rintro (h1 | h1)
  · have := mem_repr10_isDig h1
    rw [hc1] at this
    exact Bool.false_ne_true this
  · exact hc2 h1

theorem strip_res (w h : Nat) :
    strip (repr10 w ++ 'x' :: repr10 h) = repr10 w ++ 'x' :: repr10 h := by
  refine strip_no_space (fun c hc => ?_)
  rw [List.mem_append, List.mem_cons] at hc
  rcases hc with h1 | h1 | h1
  · exact notSpace_of_isDig (mem_repr10_isDig h1)
  · subst h1; decide
  · exact notSpace_of_isDig (mem_repr10_isDig h1)

theorem strip_gb (m : Nat) : strip (repr10 m ++ ['g']) = repr10 m ++ ['g'] := by
  refine strip_no_space (fun c hc => ?_)
  rw [List.mem_append, List.mem_singleton] at hc
  rcases hc with h1 | h1
  · exact notSpace_of_isDig (mem_repr10_isDig h1)
  · subst h1; decide

/- Step lemmas for `parseHWItems`. -/

theorem parseHWItems_res_ok {v x y : Str} (hres : reRes v = some (x, y))
    (rest : List (Str × Str)) (acc : List (Str × Str)) :
    parseHWItems ((HW_ALIAS_RESOLUTION, v) :: rest) acc =
      parseHWItems rest (dictInsert (dictInsert acc X_RES_KEY x) Y_RES_KEY y) := by
  rw [parseHWItems, if_pos rfl, hres]

theorem parseHWItems_res_bad {v : Str} (hres : reRes v = none)
    (rest : List (Str × Str)) (acc : List (Str × Str)) :
    parseHWItems ((HW_ALIAS_RESOLUTION, v) :: rest) acc =
      .error (.invalidHWProperty
        (str "[" ++ v ++ str "] is an invalid resolution. Example:1280x800")) := by
  rw [parseHWItems, if_pos rfl, hres]

theorem parseHWItems_gb_ok {key v gb : Str}
    (hkey : key = HW_ALIAS_MEMORY ∨ key = HW_ALIAS_DISK) (hgb : reGb v = some gb)
    (rest : List (Str × Str)) (acc : List (Str × Str)) :
    parseHWItems ((key, v) :: rest) acc =
      parseHWItems rest (dictInsert acc key (repr10 (natOfDigits gb * 1024))) := by
  have h1 : ¬(key = HW_ALIAS_RESOLUTION) := by
    rcases hkey with h | h <;> subst h <;> decide
  have h2 : (decide (key = HW_ALIAS_MEMORY) || decide (key = HW_ALIAS_DISK)) = true := by
    rcases hkey with h | h <;> subst h <;> decide
  rw [parseHWItems, if_neg h1, if_pos h2, hgb]

theorem parseHWItems_gb_bad {key v : Str}
    (hkey : key = HW_ALIAS_MEMORY ∨ key = HW_ALIAS_DISK) (hgb : reGb v = none)
    (rest : List (Str × Str)) (acc : List (Str × Str)) :
    parseHWItems ((key, v) :: rest) acc =
      .error (.invalidHWProperty
        (str "Expected gb size.[" ++ v ++ str "] is not allowed. Example:4g")) := by
  have h1 : ¬(key = HW_ALIAS_RESOLUTION) := by
    rcases hkey with h | h <;> subst h <;> decide
  have h2 : (decide (key = HW_ALIAS_MEMORY) || decide (key = HW_ALIAS_DISK)) = true := by
    rcases hkey with h | h <;> subst h <;> decide
  rw [parseHWItems, if_neg h1, if_pos h2, hgb]

theorem parseHWItems_int_ok {key v : Str}
    (hkey : key = HW_ALIAS_CPUS ∨ key = HW_ALIAS_DPI) (hint : reInt v = true)
    (rest : List (Str × Str)) (acc : List (Str × Str)) :
    parseHWItems ((key, v) :: rest) acc = parseHWItems rest (dictInsert acc key v) := by
  have h1 : ¬(key = HW_ALIAS_RESOLUTION) := by
    rcases hkey with h | h <;> subst h <;> decide
  have h2 : (decide (key = HW_ALIAS_MEMORY) || decide (key = HW_ALIAS_DISK)) = false := by
    rcases hkey with h | h <;> subst h <;> decide
  have h3 : (decide (key = HW_ALIAS_CPUS) || decide (key = HW_ALIAS_DPI)) = true := by
    rcases hkey with h | h <;> subst h <;> decide
  rw [parseHWItems, if_neg h1, if_neg (by rw [h2]; exact Bool.false_ne_true), if_pos h3,
    if_pos hint]

theorem parseHWItems_int_bad {key v : Str}
    (hkey : key = HW_ALIAS_CPUS ∨ key = HW_ALIAS_DPI) (hint : reInt v = false)
    (rest : List (Str × Str)) (acc : List (Str × Str)) :
    parseHWItems ((key, v) :: rest) acc =
      .error (.invalidHWProperty (key ++ str " value [" ++ v ++ str "] is not an integer.")) := by
  have h1 : ¬(key = HW_ALIAS_RESOLUTION) := by
    rcases hkey with h | h <;> subst h <;> decide
  have h2 : (decide (key = HW_ALIAS_MEMORY) || decide (key = HW_ALIAS_DISK)) = false := by
    rcases hkey with h | h <;> subst h <;> decide
  have h3 : (decide (key = HW_ALIAS_CPUS) || decide (key = HW_ALIAS_DPI)) = true := by
    rcases hkey with h | h <;> subst h <;> decide
  rw [parseHWItems, if_neg h1, if_neg (by rw [h2]; exact Bool.false_ne_true), if_pos h3,
    if_neg (by rw [hint]; exact Bool.false_ne_true)]

theorem parseHWItems_skip {key v : Str}
    (h1 : ¬(key = HW_ALIAS_RESOLUTION)) (h2 : ¬(key = HW_ALIAS_MEMORY))
    (h3 : ¬(key = HW_ALIAS_DISK)) (h4 : ¬(key = HW_ALIAS_CPUS)) (h5 : ¬(key = HW_ALIAS_DPI))
    (rest : List (Str × Str)) (acc : List (Str × Str)) :
    parseHWItems ((key, v) :: rest) acc = parseHWItems rest acc := by
  rw [parseHWItems, if_neg h1,
    if_neg (by rw [decide_eq_false h2, decide_eq_false h3]; exact Bool.false_ne_true),
    if_neg (by rw [decide_eq_false h4, decide_eq_false h5]; exact Bool.false_ne_true)]

/-- The claim C7 input shape `cpu:N,resolution:WxH,dpi:D,memory:Mg,disk:Sg`. -/
def hwStr (n w h d m s : Nat) : Str :=
  itemKV (str "cpu") (repr10 n) ++ ',' ::
  (itemKV (str "resolution") (repr10 w ++ 'x' :: repr10 h) ++ ',' ::
  (itemKV (str "dpi") (repr10 d) ++ ',' ::
  (itemKV (str "memory") (repr10 m ++ ['g']) ++ ',' ::
  itemKV (str "disk") (repr10 s ++ ['g']))))

theorem hwStr_split (n w h d m s : Nat) :
    splitCh ',' (hwStr n w h d m s) =
      [itemKV (str "cpu") (repr10 n),
       itemKV (str "resolution") (repr10 w ++ 'x' :: repr10 h),
       itemKV (str "dpi") (repr10 d),
       itemKV (str "memory") (repr10 m ++ ['g']),
       itemKV (str "disk") (repr10 s ++ ['g'])] := by
  unfold hwStr
  rw [splitCh_append _ (not_mem_itemKV (by decide) (by decide) (not_mem_repr10 (by decide) n)),
    splitCh_append _ (not_mem_itemKV (by decide) (by decide)
      (not_mem_resVal (by decide) (by decide) w h)),
    splitCh_append _ (not_mem_itemKV (by decide) (by decide) (not_mem_repr10 (by decide) d)),
    splitCh_append _ (not_mem_itemKV (by decide) (by decide)
      (not_mem_gbVal (by decide) (by decide) m)),
    splitCh_no_sep (not_mem_itemKV (by decide) (by decide)
      (not_mem_gbVal (by decide) (by decide) s))]

theorem hwStr_args (n w h d m s : Nat) :
    ParseHWPropertyArgs (hwStr n w h d m s) =
      .ok [(str "cpu", repr10 n),
           (str "resolution", repr10 w ++ 'x' :: repr10 h),
           (str "dpi", repr10 d),
           (str "memory", repr10 m ++ ['g']),
           (str "disk", repr10 s ++ ['g'])] := by
  have hne : (hwStr n w h d m s).isEmpty = false :=
    isEmpty_false_of_ne_nil (by simp [hwStr, itemKV])
  rw [ParseHWPropertyArgs, if_neg (by rw [hne]; exact Bool.false_ne_true), hwStr_split]
  rw [parsePairs_cons_ok (by decide) (not_mem_repr10 (by decide) n) (by decide)
    (repr10_ne_nil n)]
  rw [parsePairs_cons_ok (by decide) (not_mem_resVal (by decide) (by decide) w h) (by decide)
    (by simp)]
  rw [parsePairs_cons_ok (by decide) (not_mem_repr10 (by decide) d) (by decide)
    (repr10_ne_nil d)]
  rw [parsePairs_cons_ok (by decide) (not_mem_gbVal (by decide) (by decide) m) (by decide)
    (by simp)]
  rw [parsePairs_cons_ok (by decide) (not_mem_gbVal (by decide) (by decide) s) (by decide)
    (by simp)]
  rw [parsePairs]
  simp only [strip_repr10, strip_res, strip_gb,
    show strip (str "cpu") = str "cpu" from by decide,
    show strip (str "resolution") = str "resolution" from by decide,
    show strip (str "dpi") = str "dpi" from by decide,
    show strip (str "memory") = str "memory" from by decide,
    show strip (str "disk") = str "disk" from by decide]
  rw [dictInsert_nil]
  rw [dictInsert_cons_ne (show str "cpu" ≠ str "resolution" from by decide), dictInsert_nil]
  rw [dictInsert_cons_ne (show str "cpu" ≠ str "dpi" from by decide),
    dictInsert_cons_ne (show str "resolution" ≠ str "dpi" from by decide), dictInsert_nil]
  rw [dictInsert_cons_ne (show str "cpu" ≠ str "memory" from by decide),
    dictInsert_cons_ne (show str "resolution" ≠ str "memory" from by decide),
    dictInsert_cons_ne (show str "dpi" ≠ str "memory" from by decide), dictInsert_nil]
  rw [dictInsert_cons_ne (show str "cpu" ≠ str "disk" from by decide),
    dictInsert_cons_ne (show str "resolution" ≠ str "disk" from by decide),
    dictInsert_cons_ne (show str "dpi" ≠ str "disk" from by decide),
    dictInsert_cons_ne (show str "memory" ≠ str "disk" from by decide), dictInsert_nil]

/-- C7: for every valid hardware-property string of the form
`cpu:N,resolution:WxH,dpi:D,memory:Mg,disk:Sg` with `N, W, H, D, M, S`
positive integers, `AVDSpec._ParseHWPropertyStr` succeeds and produces a
profile whose `memory` value is `str(M*1024)` MB, whose `disk` value is
`str(S*1024)` MB, and whose `x_res`/`y_res` are exactly `W` and `H`. -/
theorem C7_valid_hw_property (n w h d m s : Nat)
    (hn : 0 < n) (hw : 0 < w) (hh : 0 < h) (hd : 0 < d) (hm : 0 < m) (hs : 0 < s) :
    ParseHWPropertyStr (hwStr n w h d m s) =
      .ok [(HW_ALIAS_CPUS, repr10 n), (X_RES_KEY, repr10 w), (Y_RES_KEY, repr10 h),
           (HW_ALIAS_DPI, repr10 d), (HW_ALIAS_MEMORY, repr10 (m * 1024)),
           (HW_ALIAS_DISK, repr10 (s * 1024))] := by
  rw [ParseHWPropertyStr, hwStr_args]
  show parseHWItems
    [(str "cpu", repr10 n), (str "resolution", repr10 w ++ 'x' :: repr10 h),
     (str "dpi", repr10 d), (str "memory", repr10 m ++ ['g']),
     (str "disk", repr10 s ++ ['g'])] [] = _
  rw [show (str "cpu") = HW_ALIAS_CPUS from rfl,
    show (str "resolution") = HW_ALIAS_RESOLUTION from rfl,
    show (str "dpi") = HW_ALIAS_DPI from rfl,
    show (str "memory") = HW_ALIAS_MEMORY from rfl,
    show (str "disk") = HW_ALIAS_DISK from rfl]
  rw [parseHWItems_int_ok (Or.inl rfl) (reInt_repr10 n)]
  rw [parseHWItems_res_ok (reRes_repr10 w h)]
  rw [parseHWItems_int_ok (Or.inr rfl) (reInt_repr10 d)]
  rw [parseHWItems_gb_ok (Or.inl rfl) (reGb_repr10 m)]
  rw [parseHWItems_gb_ok (Or.inr rfl) (reGb_repr10 s)]
  rw [parseHWItems]
  simp only [natOfDigits_repr10]
  rw [dictInsert_nil]
  rw [dictInsert_cons_ne (show HW_ALIAS_CPUS ≠ X_RES_KEY from by decide), dictInsert_nil]
  rw [dictInsert_cons_ne (show HW_ALIAS_CPUS ≠ Y_RES_KEY from by decide),
    dictInsert_cons_ne (show X_RES_KEY ≠ Y_RES_KEY from by decide), dictInsert_nil]
  rw [dictInsert_cons_ne (show HW_ALIAS_CPUS ≠ HW_ALIAS_DPI from by decide),
    dictInsert_cons_ne (show X_RES_KEY ≠ HW_ALIAS_DPI from by decide),
    dictInsert_cons_ne (show Y_RES_KEY ≠ HW_ALIAS_DPI from by decide), dictInsert_nil]
  rw [dictInsert_cons_ne (show HW_ALIAS_CPUS ≠ HW_ALIAS_MEMORY from by decide),
    dictInsert_cons_ne (show X_RES_KEY ≠ HW_ALIAS_MEMORY from by decide),
    dictInsert_cons_ne (show Y_RES_KEY ≠ HW_ALIAS_MEMORY from by decide),
    dictInsert_cons_ne (show HW_ALIAS_DPI ≠ HW_ALIAS_MEMORY from by decide), dictInsert_nil]
  rw [dictInsert_cons_ne (show HW_ALIAS_CPUS ≠ HW_ALIAS_DISK from by decide),
    dictInsert_cons_ne (show X_RES_KEY ≠ HW_ALIAS_DISK from by decide),
    dictInsert_cons_ne (show Y_RES_KEY ≠ HW_ALIAS_DISK from by decide),
    dictInsert_cons_ne (show HW_ALIAS_DPI ≠ HW_ALIAS_DISK from by decide),
    dictInsert_cons_ne (show HW_ALIAS_MEMORY ≠ HW_ALIAS_DISK from by decide), dictInsert_nil]

/-- Witness for C7 at `cpu:2,resolution:1280x800,dpi:160,memory:4g,disk:6g`. -/
theorem C7_valid_hw_property_witness :
    0 < 2 ∧ ParseHWPropertyStr (hwStr 2 1280 800 160 4 6) =
      .ok [(HW_ALIAS_CPUS, repr10 2), (X_RES_KEY, repr10 1280), (Y_RES_KEY, repr10 800),
           (HW_ALIAS_DPI, repr10 160), (HW_ALIAS_MEMORY, repr10 (4 * 1024)),
           (HW_ALIAS_DISK, repr10 (6 * 1024))] :=
  ⟨by decide,
   C7_valid_hw_property 2 1280 800 160 4 6 (by decide) (by decide) (by decide) (by decide)
     (by decide) (by decide)⟩

/-- An item that triggers the typed malformed-pair error: it lacks the `:`
separator, or splits into a pair with an empty key or value. -/
def badPairProp (item : Str) : Prop :=
  ':' ∉ item ∨ ∃ k v, splitCh ':' item = [k, v] ∧ (v = [] ∨ k = [])

/-- A dict entry whose recognised key carries a value the
`_ParseHWPropertyStr` validation rejects. -/
def badHWValue (k v : Str) : Bool :=
  (k = HW_ALIAS_RESOLUTION && (reRes v).isNone) ||
  ((k = HW_ALIAS_MEMORY || k = HW_ALIAS_DISK) && (reGb v).isNone) ||
  ((k = HW_ALIAS_CPUS || k = HW_ALIAS_DPI) && !reInt v)

/-- A well-formed `key:value` item (exactly one `:`, both sides nonempty). -/
def goodPairB (item : Str) : Bool :=
  match splitCh ':' item with
  | [k, v] => !v.isEmpty && !k.isEmpty
  | _ => false

theorem parsePairs_cons_good {item k v : Str} (hc : ':' ∈ item)
    (hsp : splitCh ':' item = [k, v]) (hv : v ≠ []) (hk : k ≠ [])
    (rest : List Str) (acc : List (Str × Str)) :
    parsePairs (item :: rest) acc = parsePairs rest (dictInsert acc (strip k) (strip v)) := by
  rw [parsePairs, if_pos hc, hsp]
  show (if (v.isEmpty || k.isEmpty) = true then _ else _) = _
  rw [isEmpty_false_of_ne_nil hv, isEmpty_false_of_ne_nil hk]
  rfl

theorem exists_pair_of_count_one {item : Str} (hc : ':' ∈ item)
    (hone : item.count ':' ≤ 1) : ∃ k v, splitCh ':' item = [k, v] := by
  have hpos : 0 < item.count ':' := List.count_pos_iff.mpr hc
  have hlen := splitCh_length ':' item
  have : (splitCh ':' item).length = 2 := by omega
  rcases hs : splitCh ':' item with _ | ⟨a, _ | ⟨b, _ | ⟨c, t⟩⟩⟩ <;> rw [hs] at this <;>
    simp at this
  exact ⟨a, b, rfl⟩

theorem parsePairs_bad : ∀ (items : List Str) (acc : List (Str × Str)),
    (∀ item ∈ items, item.count ':' ≤ 1) →
    (∃ item ∈ items, badPairProp item) →
    ∃ msg, parsePairs items acc = .error (.malformedDictString msg)
  | [], _, _, hbad => by simp at hbad
  | item :: rest, acc, hone, hbad => by
    by_cases hc : ':' ∈ item
    · obtain ⟨k, v, hsp⟩ :=
        exists_pair_of_count_one hc (hone item (List.mem_cons_self _ _))
      by_cases hemp : v = [] ∨ k = []
      · exact ⟨_, parsePairs_cons_emptySide hc hsp hemp rest acc⟩
      · push_neg at hemp
        rw [parsePairs_cons_good hc hsp hemp.1 hemp.2]
        refine parsePairs_bad rest _ (fun it hit => hone it (List.mem_cons_of_mem _ hit)) ?_
        rcases hbad with ⟨it, hit, hbadit⟩
        rcases List.mem_cons.mp hit with rfl | hit'
        · exfalso
          rcases hbadit with h1 | ⟨k', v', hsp', hemp'⟩
          · exact h1 hc
          · rw [hsp] at hsp'
            injection hsp' with e1 e2
            injection e2 with e2 _
            subst e1; subst e2
            rcases hemp' with h' | h'
            · exact hemp.1 h'
            · exact hemp.2 h'
        · exact ⟨it, hit', hbadit⟩
    · exact ⟨_, parsePairs_cons_noColon hc rest acc⟩

theorem badHWValue_res (v : Str) :
    badHWValue HW_ALIAS_RESOLUTION v = (reRes v).isNone := by
  unfold badHWValue
  rw [show decide (HW_ALIAS_RESOLUTION = HW_ALIAS_RESOLUTION) = true from by decide,
    show decide (HW_ALIAS_RESOLUTION = HW_ALIAS_MEMORY) = false from by decide,
    show decide (HW_ALIAS_RESOLUTION = HW_ALIAS_DISK) = false from by decide,
    show decide (HW_ALIAS_RESOLUTION = HW_ALIAS_CPUS) = false from by decide,
    show decide (HW_ALIAS_RESOLUTION = HW_ALIAS_DPI) = false from by decide]
  cases reRes v <;> cases reGb v <;> cases reInt v <;> rfl

theorem badHWValue_memory (v : Str) :
    badHWValue HW_ALIAS_MEMORY v = (reGb v).isNone := by
  unfold badHWValue
  rw [show decide (HW_ALIAS_MEMORY = HW_ALIAS_RESOLUTION) = false from by decide,
    show decide (HW_ALIAS_MEMORY = HW_ALIAS_MEMORY) = true from by decide,
    show decide (HW_ALIAS_MEMORY = HW_ALIAS_DISK) = false from by decide,
    show decide (HW_ALIAS_MEMORY = HW_ALIAS_CPUS) = false from by decide,
    show decide (HW_ALIAS_MEMORY = HW_ALIAS_DPI) = false from by decide]
  cases reRes v <;> cases reGb v <;> cases reInt v <;> rfl

theorem badHWValue_disk (v : Str) :
    badHWValue HW_ALIAS_DISK v = (reGb v).isNone := by
  unfold badHWValue
  rw [show decide (HW_ALIAS_DISK = HW_ALIAS_RESOLUTION) = false from by decide,
    show decide (HW_ALIAS_DISK = HW_ALIAS_MEMORY) = false from by decide,
    show decide (HW_ALIAS_DISK = HW_ALIAS_DISK) = true from by decide,
    show decide (HW_ALIAS_DISK = HW_ALIAS_CPUS) = false from by decide,
    show decide (HW_ALIAS_DISK = HW_ALIAS_DPI) = false from by decide]
  cases reRes v <;> cases reGb v <;> cases reInt v <;> rfl

theorem badHWValue_cpu (v : Str) :
    badHWValue HW_ALIAS_CPUS v = !reInt v := by
  unfold badHWValue
  rw [show decide (HW_ALIAS_CPUS = HW_ALIAS_RESOLUTION) = false from by decide,
    show decide (HW_ALIAS_CPUS = HW_ALIAS_MEMORY) = false from by decide,
    show decide (HW_ALIAS_CPUS = HW_ALIAS_DISK) = false from by decide,
    show decide (HW_ALIAS_CPUS = HW_ALIAS_CPUS) = true from by decide,
    show decide (HW_ALIAS_CPUS = HW_ALIAS_DPI) = false from by decide]
  cases reRes v <;> cases reGb v <;> cases reInt v <;> rfl

theorem badHWValue_dpi (v : Str) :
    badHWValue HW_ALIAS_DPI v = !reInt v := by
  unfold badHWValue
  rw [show decide (HW_ALIAS_DPI = HW_ALIAS_RESOLUTION) = false from by decide,
    show decide (HW_ALIAS_DPI = HW_ALIAS_MEMORY) = false from by decide,
    show decide (HW_ALIAS_DPI = HW_ALIAS_DISK) = false from by decide,
    show decide (HW_ALIAS_DPI = HW_ALIAS_CPUS) = false from by decide,
    show decide (HW_ALIAS_DPI = HW_ALIAS_DPI) = true from by decide]
  cases reRes v <;> cases reGb v <;> cases reInt v <;> rfl

theorem badHWValue_other {k : Str} (v : Str) (h1 : ¬(k = HW_ALIAS_RESOLUTION))
    (h2 : ¬(k = HW_ALIAS_MEMORY)) (h3 : ¬(k = HW_ALIAS_DISK))
    (h4 : ¬(k = HW_ALIAS_CPUS)) (h5 : ¬(k = HW_ALIAS_DPI)) :
    badHWValue k v = false := by
  unfold badHWValue
  rw [decide_eq_false h1, decide_eq_false h2, decide_eq_false h3, decide_eq_false h4,
    decide_eq_false h5]
  cases reRes v <;> cases reGb v <;> cases reInt v <;> rfl

theorem parseHWItems_bad : ∀ (d : List (Str × Str)) (acc : List (Str × Str)),
    (∃ kv ∈ d, badHWValue kv.1 kv.2 = true) →
    ∃ msg, parseHWItems d acc = .error (.invalidHWProperty msg)
  | [], _, hbad => by simp at hbad
  | (k, v) :: rest, acc, hbad => by
    have tailCase : (∃ kv ∈ rest, badHWValue kv.1 kv.2 = true) →
        ∃ msg, parseHWItems rest (dictInsert (dictInsert acc X_RES_KEY
          ((reRes v).getD ([], [])).1) Y_RES_KEY ((reRes v).getD ([], [])).2) =
          .error (.invalidHWProperty msg) := fun hb => parseHWItems_bad rest _ hb
    clear tailCase
    by_cases hres : k = HW_ALIAS_RESOLUTION
    · subst hres
      cases hr : reRes v with
      | none => exact ⟨_, parseHWItems_res_bad hr rest acc⟩
      | some xy =>
        rcases xy with ⟨x, y⟩
        rw [parseHWItems_res_ok hr rest acc]
        refine parseHWItems_bad rest _ ?_
        rcases hbad with ⟨kv, hkv, hbadkv⟩
        rcases List.mem_cons.mp hkv with rfl | hkv2
        · rw [badHWValue_res, hr] at hbadkv
          simp at hbadkv
        · exact ⟨kv, hkv2, hbadkv⟩
    · by_cases hgb : k = HW_ALIAS_MEMORY ∨ k = HW_ALIAS_DISK
      · cases hr : reGb v with
        | none => exact ⟨_, parseHWItems_gb_bad hgb hr rest acc⟩
        | some gb =>
          rw [parseHWItems_gb_ok hgb hr rest acc]
          refine parseHWItems_bad rest _ ?_
          rcases hbad with ⟨kv, hkv, hbadkv⟩
          rcases List.mem_cons.mp hkv with rfl | hkv2
          · exfalso
            rcases hgb with h | h <;> subst h
            · rw [badHWValue_memory, hr] at hbadkv
              simp at hbadkv
            · rw [badHWValue_disk, hr] at hbadkv
              simp at hbadkv
          · exact ⟨kv, hkv2, hbadkv⟩
      · by_cases hint : k = HW_ALIAS_CPUS ∨ k = HW_ALIAS_DPI
        · cases hr : reInt v with
          | false => exact ⟨_, parseHWItems_int_bad hint hr rest acc⟩
          | true =>
            rw [parseHWItems_int_ok hint hr rest acc]
            refine parseHWItems_bad rest _ ?_
            rcases hbad with ⟨kv, hkv, hbadkv⟩
            rcases List.mem_cons.mp hkv with rfl | hkv2
            · exfalso
              rcases hint with h | h <;> subst h
              · rw [badHWValue_cpu, hr] at hbadkv
                simp at hbadkv
              · rw [badHWValue_dpi, hr] at hbadkv
                simp at hbadkv
            · exact ⟨kv, hkv2, hbadkv⟩
        · push_neg at hgb hint
          rw [parseHWItems_skip hres hgb.1 hgb.2 hint.1 hint.2 rest acc]
          refine parseHWItems_bad rest _ ?_
          rcases hbad with ⟨kv, hkv, hbadkv⟩
          rcases List.mem_cons.mp hkv with rfl | hkv2
          · rw [badHWValue_other v hres hgb.1 hgb.2 hint.1 hint.2] at hbadkv
            simp at hbadkv
          · exact ⟨kv, hkv2, hbadkv⟩

/-- C3 (amended): for every nonempty hardware-property string whose items
each contain at most one `:` and which contains a malformed item — an item
missing the `:` separator or with an empty key or value, or (once the
key-value parse succeeds) a recognised key whose value fails its validation
(`resolution` not `<digits>x<digits>`, `memory`/`disk` not `<digits>g`
case-insensitively, `cpu`/`dpi` not a digit string; a `0` value is a digit
string and is accepted) — hardware-profile resolution fails with one of the
two documented typed errors.  The `Except`-valued embedding returns only
the error, so no partial profile state is produced. -/
theorem C3_malformed_hw_fails (s : Str) (hne : s ≠ [])
    (hone : ∀ item ∈ splitCh ',' s, item.count ':' ≤ 1)
    (hbad : (∃ item ∈ splitCh ',' s, badPairProp item) ∨
            (∃ d, ParseHWPropertyArgs s = .ok d ∧ ∃ kv ∈ d, badHWValue kv.1 kv.2 = true)) :
    ∃ e, ParseHWPropertyStr s = .error e ∧
      (e.isMalformedDictString = true ∨ e.isInvalidHWProperty = true) := by
  rcases hbad with hb | ⟨d, hd, hkv⟩
  · obtain ⟨msg, hmsg⟩ := parsePairs_bad (splitCh ',' s) [] hone hb
    have hp : ParseHWPropertyArgs s = .error (.malformedDictString msg) := by
      rw [ParseHWPropertyArgs, if_neg (by
        rw [isEmpty_false_of_ne_nil hne]; exact Bool.false_ne_true)]
      exact hmsg
    rw [ParseHWPropertyStr, hp]
    exact ⟨_, rfl, Or.inl rfl⟩
  · obtain ⟨msg, hmsg⟩ := parseHWItems_bad d [] hkv
    rw [ParseHWPropertyStr, hd]
    exact ⟨_, hmsg, Or.inr rfl⟩

/-- Witness for C3 at the malformed input `"cpu"` (no `:` separator). -/
theorem C3_malformed_hw_fails_witness :
    (str "cpu" ≠ ([] : Str)) ∧ (∀ item ∈ splitCh ',' (str "cpu"), item.count ':' ≤ 1) ∧
    ∃ e, ParseHWPropertyStr (str "cpu") = .error e ∧
      (e.isMalformedDictString = true ∨ e.isInvalidHWProperty = true) :=
  ⟨by decide, by decide,
   C3_malformed_hw_fails (str "cpu") (by decide) (by decide)
     (Or.inl ⟨str "cpu", by decide, Or.inl (by decide)⟩)⟩

/-- Counterexample to C3 as stated: the claim requires failure for a `cpu`
value that is not a *positive* integer and for a `resolution` not made of
two *positive* integers, but the code's `^\d+$` and `^(\d+)x(\d+)$` checks
accept `0`, so `cpu:0` and `resolution:0x0` resolve successfully (and
produce profile state) instead of failing. -/
theorem C3_counterexample :
    ParseHWPropertyStr (str "cpu:0") = .ok [(str "cpu", str "0")] ∧
    ParseHWPropertyStr (str "resolution:0x0") =
      .ok [(str "x_res", str "0"), (str "y_res", str "0")] := by
  constructor <;> decide

/-- C10: splitting an item such as `cpu:2:3` on every `:` occurrence yields
more than two parts, so the tuple unpacking raises Python's built-in
`ValueError` instead of the typed `MalformedDictStringError`; the same
happens for any input whose first non-well-formed item has two or more `:`
separators; and the typed malformed-pair error arises only from an item
with zero `:` separators or an empty key or value. -/
theorem C10_multi_colon_unpack :
    ParseHWPropertyArgs (str "cpu:2:3") =
      .error (.valueError (str "too many values to unpack")) ∧
    (∀ (pre : List Str) (item : Str) (post : List Str) (acc : List (Str × Str)),
      (∀ p ∈ pre, goodPairB p = true) → 2 ≤ item.count ':' →
      parsePairs (pre ++ item :: post) acc =
        .error (.valueError (str "too many values to unpack"))) ∧
    (∀ (s : Str) (msg : Str), ParseHWPropertyArgs s = .error (.malformedDictString msg) →
      ∃ item ∈ splitCh ',' s, badPairProp item) := by
  refine ⟨by decide, ?_, ?_⟩
  · intro pre
    induction pre with
    | nil =>
      intro item post acc _ h2
      have hc : ':' ∈ item := by
        refine List.count_pos_iff.mp ?_
        omega
      have hlen : 3 ≤ (splitCh ':' item).length := by
        rw [splitCh_length]
        omega
      rw [List.nil_append]
      exact parsePairs_cons_unpack hc hlen post acc
    | cons p pre ih =>
      intro item post acc hgood h2
      have hgp := hgood p (List.mem_cons_self _ _)
      rw [goodPairB] at hgp
      rcases hsp : splitCh ':' p with _ | ⟨k, _ | ⟨v, _ | ⟨c, t⟩⟩⟩ <;> rw [hsp] at hgp
      · exact absurd hgp (Bool.false_ne_true)
      · exact absurd hgp (Bool.false_ne_true)
      · have hgp2 : (!v.isEmpty && !k.isEmpty) = true := hgp
        rw [Bool.and_eq_true, Bool.not_eq_true', Bool.not_eq_true'] at hgp2
        have hc : ':' ∈ p := by
          refine List.count_pos_iff.mp ?_
          have := splitCh_length ':' p
          rw [hsp] at this
          simp at this
          omega
        have hv : v ≠ [] := by
          intro he
          rw [he] at hgp2
          cases hgp2.1
        have hk : k ≠ [] := by
          intro he
          rw [he] at hgp2
          cases hgp2.2
        rw [List.cons_append, parsePairs_cons_good hc hsp hv hk]
        exact ih item post _ (fun q hq => hgood q (List.mem_cons_of_mem _ hq)) h2
      · exact absurd hgp (Bool.false_ne_true)
  · have aux : ∀ (items : List Str) (acc : List (Str × Str)) (msg : Str),
        parsePairs items acc = .error (.malformedDictString msg) →
        ∃ item ∈ items, badPairProp item := by
      intro items
      induction items with
      | nil =>
        intro acc msg h
        rw [parsePairs] at h
        cases h
      | cons item rest ih =>
        intro acc msg h
        by_cases hc : ':' ∈ item
        · have hpos := List.count_pos_iff.mpr hc
          have hlen := splitCh_length ':' item
          rcases hsp : splitCh ':' item with _ | ⟨k, _ | ⟨v, _ | ⟨c, t⟩⟩⟩ <;>
            rw [hsp] at hlen <;> simp at hlen
          · omega
          · by_cases hemp : v = [] ∨ k = []
            · exact ⟨item, List.mem_cons_self _ _, Or.inr ⟨k, v, hsp, hemp⟩⟩
            · push_neg at hemp
              rw [parsePairs_cons_good hc hsp hemp.1 hemp.2] at h
              obtain ⟨it, hit, hbadit⟩ := ih _ _ h
              exact ⟨it, List.mem_cons_of_mem _ hit, hbadit⟩
          · rw [parsePairs_cons_unpack hc (by rw [hsp]; simp) rest acc] at h
            injection h with h1
            injection h1
        · exact ⟨item, List.mem_cons_self _ _, Or.inl hc⟩
    intro s msg h
    rw [ParseHWPropertyArgs] at h
    by_cases hs : s.isEmpty = true
    · rw [if_pos hs] at h
      cases h
    · rw [if_neg hs] at h
      exact aux _ _ _ h

/-- Witness for C10: the well-formed item `cpu:1` followed by the
multi-colon item `a:b:c` hits the untyped unpacking error, and the typed
error on `"zz"` indeed comes from an item with no `:`. -/
theorem C10_multi_colon_unpack_witness :
    ((∀ p ∈ [str "cpu:1"], goodPairB p = true) ∧ 2 ≤ (str "a:b:c").count ':' ∧
      parsePairs ([str "cpu:1"] ++ (str "a:b:c") :: []) [] =
        .error (.valueError (str "too many values to unpack"))) ∧
    (ParseHWPropertyArgs (str "zz") =
        .error (.malformedDictString (str "Expecting : in zz to make a key-val pair")) ∧
      ∃ item ∈ splitCh ',' (str "zz"), badPairProp item) :=
  ⟨⟨by decide, by decide,
    C10_multi_colon_unpack.2.1 [str "cpu:1"] (str "a:b:c") [] [] (by decide) (by decide)⟩,
   ⟨by decide, C10_multi_colon_unpack.2.2 (str "zz")
      (str "Expecting : in zz to make a key-val pair") (by decide)⟩⟩

/-- C8: the creation-strategy selector is a pure function of the
`(instance_type, image_source)` string pair: each of the four valid
combinations returns its own distinct creator class, and every other pair
fails with `UnsupportedInstanceImageType`.  (The embedding is a pure
function, matching the side-effect-free dispatch of the source.) -/
theorem C8_creator_dispatch (instanceType imageSource : Str)
    (h : ¬((instanceType = INSTANCE_TYPE_REMOTE ∨ instanceType = INSTANCE_TYPE_LOCAL) ∧
           (imageSource = IMAGE_SRC_REMOTE ∨ imageSource = IMAGE_SRC_LOCAL))) :
    GetAvdCreatorClass INSTANCE_TYPE_REMOTE IMAGE_SRC_LOCAL = .ok .localImageRemoteInstance ∧
    GetAvdCreatorClass INSTANCE_TYPE_LOCAL IMAGE_SRC_LOCAL = .ok .localImageLocalInstance ∧
    GetAvdCreatorClass INSTANCE_TYPE_REMOTE IMAGE_SRC_REMOTE = .ok .remoteImageRemoteInstance ∧
    GetAvdCreatorClass INSTANCE_TYPE_LOCAL IMAGE_SRC_REMOTE = .ok .remoteImageLocalInstance ∧
    ([CreatorClass.localImageRemoteInstance, CreatorClass.localImageLocalInstance,
      CreatorClass.remoteImageRemoteInstance, CreatorClass.remoteImageLocalInstance]).Nodup ∧
    ∃ m, GetAvdCreatorClass instanceType imageSource =
      .error (.unsupportedInstanceImageType m) := by
  refine ⟨by decide, by decide, by decide, by decide, by decide, ?_⟩
  rw [GetAvdCreatorClass,
    if_neg (fun hh => h ⟨Or.inl hh.1, Or.inr hh.2⟩),
    if_neg (fun hh => h ⟨Or.inr hh.1, Or.inr hh.2⟩),
    if_neg (fun hh => h ⟨Or.inl hh.1, Or.inl hh.2⟩),
    if_neg (fun hh => h ⟨Or.inr hh.1, Or.inl hh.2⟩)]
  exact ⟨_, rfl⟩

/-- Witness for C8 at the invalid pair `("remote", "bogus")`. -/
theorem C8_creator_dispatch_witness :
    (¬(((str "remote") = INSTANCE_TYPE_REMOTE ∨ (str "remote") = INSTANCE_TYPE_LOCAL) ∧
       ((str "bogus") = IMAGE_SRC_REMOTE ∨ (str "bogus") = IMAGE_SRC_LOCAL))) ∧
    ∃ m, GetAvdCreatorClass (str "remote") (str "bogus") =
      .error (.unsupportedInstanceImageType m) :=
  ⟨by decide, (C8_creator_dispatch (str "remote") (str "bogus") (by decide)).2.2.2.2.2⟩

theorem remoteBuild_all_explicit {args : SpecArgs} (collab : BuildCollab)
    (hb : pyTruthy args.branch = true) (ht : pyTruthy args.build_target = true)
    (hi : pyTruthy args.build_id = true) :
    ProcessRemoteBuildArgs args collab =
      (.ok ⟨args.branch.getD [], args.build_target.getD [], args.build_id.getD []⟩, []) := by
  unfold ProcessRemoteBuildArgs
  simp only [hb, ht, hi, if_true]

theorem remoteBuild_ok_fields (args : SpecArgs) (collab : BuildCollab) (ri : RemoteImage)
    (h : (ProcessRemoteBuildArgs args collab).1 = .ok ri) :
    (pyTruthy args.branch = true → ri.build_branch = args.branch.getD []) ∧
    (pyTruthy args.build_target = true → ri.build_target = args.build_target.getD []) ∧
    (pyTruthy args.build_id = true → ri.build_id = args.build_id.getD []) := by
  unfold ProcessRemoteBuildArgs at h
  by_cases hb : pyTruthy args.branch = true <;>
    simp only [hb, if_true, Bool.false_eq_true, if_false] at h
  · by_cases ht : pyTruthy args.build_target = true <;>
      simp only [ht, if_true, Bool.false_eq_true, if_false] at h
    · by_cases hi : pyTruthy args.build_id = true <;>
        simp only [hi, if_true, Bool.false_eq_true, if_false] at h
      · simp only [Except.ok.injEq] at h
        subst h
        exact ⟨fun _ => rfl, fun _ => rfl, fun _ => rfl⟩
      · cases hl : collab.getLKGB (args.build_target.getD []) (args.branch.getD []) <;>
          rw [hl] at h
        · cases h
        · simp only [Except.ok.injEq] at h
          subst h
          refine ⟨fun _ => rfl, fun _ => rfl, fun hi2 => ?_⟩
          rw [hi2] at hi
          cases hi rfl
    · cases hg : GetBuildTarget args.avd_type args.flavor (args.branch.getD []) <;>
        rw [hg] at h
      · cases h
      · by_cases hi : pyTruthy args.build_id = true <;>
          simp only [hi, if_true, Bool.false_eq_true, if_false] at h
        · simp only [Except.ok.injEq] at h
          subst h
          refine ⟨fun _ => rfl, fun ht2 => ?_, fun _ => rfl⟩
          rw [ht2] at ht
          cases ht rfl
        · cases hl : collab.getLKGB _ (args.branch.getD []) <;> rw [hl] at h
          · cases h
          · simp only [Except.ok.injEq] at h
            subst h
            refine ⟨fun _ => rfl, fun ht2 => ?_, fun hi2 => ?_⟩
            · rw [ht2] at ht
              cases ht rfl
            · rw [hi2] at hi
              cases hi rfl
  · cases hbr : collab.getBranchFromRepo <;> rw [hbr] at h
    · cases h
    · rename_i branch
      by_cases ht : pyTruthy args.build_target = true <;>
        simp only [ht, if_true, Bool.false_eq_true, if_false] at h
      · by_cases hi : pyTruthy args.build_id = true <;>
          simp only [hi, if_true, Bool.false_eq_true, if_false] at h
        · simp only [Except.ok.injEq] at h
          subst h
          refine ⟨fun hb2 => ?_, fun _ => rfl, fun _ => rfl⟩
          rw [hb2] at hb
          cases hb rfl
        · cases hl : collab.getLKGB (args.build_target.getD []) branch <;> rw [hl] at h
          · cases h
          · simp only [Except.ok.injEq] at h
            subst h
            refine ⟨fun hb2 => ?_, fun _ => rfl, fun hi2 => ?_⟩
            · rw [hb2] at hb
              cases hb rfl
            · rw [hi2] at hi
              cases hi rfl
      · cases hg : GetBuildTarget args.avd_type args.flavor branch <;> rw [hg] at h
        · cases h
        · by_cases hi : pyTruthy args.build_id = true <;>
            simp only [hi, if_true, Bool.false_eq_true, if_false] at h
          · simp only [Except.ok.injEq] at h
            subst h
            refine ⟨fun hb2 => ?_, fun ht2 => ?_, fun _ => rfl⟩
            · rw [hb2] at hb
              cases hb rfl
            · rw [ht2] at ht
              cases ht rfl
          · cases hl : collab.getLKGB _ branch <;> rw [hl] at h
            · cases h
            · simp only [Except.ok.injEq] at h
              subst h
              refine ⟨fun hb2 => ?_, fun ht2 => ?_, fun hi2 => ?_⟩
              · rw [hb2] at hb
                cases hb rfl
              · rw [ht2] at ht
                cases ht rfl
              · rw [hi2] at hi
                cases hi rfl

theorem remoteBuild_calls_shape (args : SpecArgs) (collab : BuildCollab) :
    ∃ pre post, (ProcessRemoteBuildArgs args collab).2 = pre ++ post ∧
      (pre = [] ∨ pre = [.repoInfo]) ∧
      (post = [] ∨ ∃ t b, post = [.lkgb t b]) ∧
      (pyTruthy args.branch = true → pre = []) ∧
      (pyTruthy args.build_id = true → post = []) := by
  unfold ProcessRemoteBuildArgs
  by_cases hb : pyTruthy args.branch = true <;>
    simp only [hb, if_true, Bool.false_eq_true, if_false]
  · by_cases ht : pyTruthy args.build_target = true <;>
      simp only [ht, if_true, Bool.false_eq_true, if_false]
    · by_cases hi : pyTruthy args.build_id = true <;>
        simp only [hi, if_true, Bool.false_eq_true, if_false]
      · exact ⟨[], [], rfl, Or.inl rfl, Or.inl rfl, fun _ => rfl, fun _ => rfl⟩
      · cases hl : collab.getLKGB (args.build_target.getD []) (args.branch.getD [])
        · exact ⟨[], [.lkgb _ _], rfl, Or.inl rfl, Or.inr ⟨_, _, rfl⟩, fun _ => rfl,
            fun hi2 => hi2.elim⟩
        · exact ⟨[], [.lkgb _ _], rfl, Or.inl rfl, Or.inr ⟨_, _, rfl⟩, fun _ => rfl,
            fun hi2 => hi2.elim⟩
    · cases hg : GetBuildTarget args.avd_type args.flavor (args.branch.getD [])
      · exact ⟨[], [], rfl, Or.inl rfl, Or.inl rfl, fun _ => rfl, fun _ => rfl⟩
      · by_cases hi : pyTruthy args.build_id = true <;>
          simp only [hi, if_true, Bool.false_eq_true, if_false]
        · exact ⟨[], [], rfl, Or.inl rfl, Or.inl rfl, fun _ => rfl, fun _ => rfl⟩
        · cases hl : collab.getLKGB _ (args.branch.getD [])
          · exact ⟨[], [.lkgb _ _], rfl, Or.inl rfl, Or.inr ⟨_, _, rfl⟩, fun _ => rfl,
              fun hi2 => hi2.elim⟩
          · exact ⟨[], [.lkgb _ _], rfl, Or.inl rfl, Or.inr ⟨_, _, rfl⟩, fun _ => rfl,
              fun hi2 => hi2.elim⟩
  · cases hbr : collab.getBranchFromRepo
    · exact ⟨[.repoInfo], [], rfl, Or.inr rfl, Or.inl rfl, fun hb2 => hb2.elim,
        fun _ => rfl⟩
    · rename_i branch
      by_cases ht : pyTruthy args.build_target = true <;>
        simp only [ht, if_true, Bool.false_eq_true, if_false]
      · by_cases hi : pyTruthy args.build_id = true <;>
          simp only [hi, if_true, Bool.false_eq_true, if_false]
        · exact ⟨[.repoInfo], [], rfl, Or.inr rfl, Or.inl rfl, fun hb2 => hb2.elim,
            fun _ => rfl⟩
        · cases hl : collab.getLKGB (args.build_target.getD []) branch
          · exact ⟨[.repoInfo], [.lkgb _ _], rfl, Or.inr rfl, Or.inr ⟨_, _, rfl⟩,
              fun hb2 => hb2.elim, fun hi2 => hi2.elim⟩
          · exact ⟨[.repoInfo], [.lkgb _ _], rfl, Or.inr rfl, Or.inr ⟨_, _, rfl⟩,
              fun hb2 => hb2.elim, fun hi2 => hi2.elim⟩
      · cases hg : GetBuildTarget args.avd_type args.flavor branch
        · exact ⟨[.repoInfo], [], rfl, Or.inr rfl, Or.inl rfl, fun hb2 => hb2.elim,
            fun _ => rfl⟩
        · by_cases hi : pyTruthy args.build_id = true <;>
            simp only [hi, if_true, Bool.false_eq_true, if_false]
          · exact ⟨[.repoInfo], [], rfl, Or.inr rfl, Or.inl rfl,
              fun hb2 => hb2.elim, fun _ => rfl⟩
          · cases hl : collab.getLKGB _ branch
            · exact ⟨[.repoInfo], [.lkgb _ _], rfl, Or.inr rfl, Or.inr ⟨_, _, rfl⟩,
                fun hb2 => hb2.elim, fun hi2 => hi2.elim⟩
            · exact ⟨[.repoInfo], [.lkgb _ _], rfl, Or.inr rfl, Or.inr ⟨_, _, rfl⟩,
                fun hb2 => hb2.elim, fun hi2 => hi2.elim⟩

/-- C5: during remote-image resolution each inference step runs only when
the corresponding explicit value is falsy and never overrides an explicit
value; with branch, build target and build id all supplied, no collaborator
call is made at all — in particular zero LKGB build lookups. -/
theorem C5_explicit_coordinates_no_inference (args : SpecArgs) (collab : BuildCollab) :
    (pyTruthy args.branch = true →
      BuildCall.repoInfo ∉ (ProcessRemoteBuildArgs args collab).2) ∧
    (pyTruthy args.build_id = true →
      ∀ t b, BuildCall.lkgb t b ∉ (ProcessRemoteBuildArgs args collab).2) ∧
    (∀ ri, (ProcessRemoteBuildArgs args collab).1 = .ok ri →
      (pyTruthy args.branch = true → ri.build_branch = args.branch.getD []) ∧
      (pyTruthy args.build_target = true → ri.build_target = args.build_target.getD []) ∧
      (pyTruthy args.build_id = true → ri.build_id = args.build_id.getD [])) ∧
    ((pyTruthy args.branch && pyTruthy args.build_target && pyTruthy args.build_id) = true →
      ProcessRemoteBuildArgs args collab =
        (.ok ⟨args.branch.getD [], args.build_target.getD [], args.build_id.getD []⟩, [])) := by
  obtain ⟨pre, post, hsplit, hpre, hpost, hbpre, hipost⟩ := remoteBuild_calls_shape args collab
  refine ⟨?_, ?_, fun ri h => remoteBuild_ok_fields args collab ri h, ?_⟩
  · intro hb hmem
    rw [hsplit, hbpre hb, List.nil_append] at hmem
    rcases hpost with rfl | ⟨t, b, rfl⟩
    · cases hmem
    · exact BuildCall.noConfusion (List.mem_singleton.mp hmem)
  · intro hi t b hmem
    rw [hsplit, hipost hi, List.append_nil] at hmem
    rcases hpre with rfl | rfl
    · cases hmem
    · exact BuildCall.noConfusion (List.mem_singleton.mp hmem)
  · intro hall
    rw [Bool.and_eq_true, Bool.and_eq_true] at hall
    exact remoteBuild_all_explicit collab hall.1.1 hall.1.2 hall.2

/-- Witness for C5: all three coordinates explicit, hostile collaborators
(which would fail if consulted), zero calls made. -/
theorem C5_explicit_coordinates_no_inference_witness :
    ((pyTruthy (some (str "aosp-master")) && pyTruthy (some (str "aosp_cf_x86_phone-userdebug"))
        && pyTruthy (some (str "1234"))) = true) ∧
    ProcessRemoteBuildArgs
      ⟨some [], some (str "aosp-master"), some (str "aosp_cf_x86_phone-userdebug"),
       some (str "1234"), str "cuttlefish", str "phone"⟩
      ⟨.error (.otherErr (str "repo should not run")),
       fun _ _ => .error (.otherErr (str "lkgb should not run")), none⟩ =
      (.ok ⟨str "aosp-master", str "aosp_cf_x86_phone-userdebug", str "1234"⟩, []) :=
  ⟨by decide,
   (C5_explicit_coordinates_no_inference
      ⟨some [], some (str "aosp-master"), some (str "aosp_cf_x86_phone-userdebug"),
       some (str "1234"), str "cuttlefish", str "phone"⟩
      ⟨.error (.otherErr (str "repo should not run")),
       fun _ _ => .error (.otherErr (str "lkgb should not run")), none⟩).2.2.2 (by decide)⟩

/-- C4 (amended): `image_source` resolves to REMOTE exactly when the
local-image flag value equals the empty string (its not-supplied argparse
default); the `None` sentinel (flag supplied without a path) selects LOCAL
with path inference from `ANDROID_PRODUCT_OUT`; a nonempty flag value
selects LOCAL with that path; the missing-build-environment error is
raised exactly when the flag value is the `None` sentinel and the
environment variable is absent. -/
theorem C4_image_source_resolution (args : SpecArgs) (collab : BuildCollab) :
    (args.local_image = some [] →
      ∀ s, (ProcessImageArgs args collab).1 = .ok s → s.image_source = IMAGE_SRC_REMOTE) ∧
    (args.local_image ≠ some [] →
      (∀ s, (ProcessImageArgs args collab).1 = .ok s → s.image_source = IMAGE_SRC_LOCAL) ∧
      (∀ p, args.local_image = some p → p ≠ [] →
        (ProcessImageArgs args collab).1 = .ok ⟨IMAGE_SRC_LOCAL, some p, none⟩) ∧
      (args.local_image = none →
        (∀ v, collab.envAndroidProductOut = some v →
          (ProcessImageArgs args collab).1 = .ok ⟨IMAGE_SRC_LOCAL, some v, none⟩) ∧
        (collab.envAndroidProductOut = none →
          (ProcessImageArgs args collab).1 = .error (.getAndroidBuildEnvVar
            (str "Could not get environment var: ANDROID_PRODUCT_OUT"))))) := by
  constructor
  · intro hli s hs
    rw [ProcessImageArgs, if_pos hli] at hs
    cases hpr : ProcessRemoteBuildArgs args collab with
    | mk fst snd =>
      rw [hpr] at hs
      cases fst with
      | error e => cases hs
      | ok ri =>
        simp only [Except.ok.injEq] at hs
        rw [← hs]
  · intro hli
    have hbr : ∀ r, (ProcessImageArgs args collab).1 = r →
        r = (match ProcessLocalImageArgs args.local_image collab.envAndroidProductOut with
             | .error e => (.error e : Except CreateErr ImageState)
             | .ok dir => .ok ⟨IMAGE_SRC_LOCAL, some dir, none⟩) := by
      intro r hr
      rw [ProcessImageArgs, if_neg hli] at hr
      cases hl : ProcessLocalImageArgs args.local_image collab.envAndroidProductOut <;>
        rw [hl] at hr <;> rw [← hr]
    refine ⟨?_, ?_, ?_⟩
    · intro s hs
      have := hbr _ hs
      cases hl : ProcessLocalImageArgs args.local_image collab.envAndroidProductOut <;>
        rw [hl] at this
      · cases this
      · simp only [Except.ok.injEq] at this
        rw [this]
    · intro p hp hpne
      rw [ProcessImageArgs, if_neg hli]
      have hl : ProcessLocalImageArgs args.local_image collab.envAndroidProductOut = .ok p := by
        rw [ProcessLocalImageArgs.eq_def, hp,
          if_pos (by simp [pyTruthy, isEmpty_false_of_ne_nil hpne])]
        rfl
      rw [hl]
    · intro hnone
      constructor
      · intro v hv
        rw [ProcessImageArgs, if_neg hli]
        have hl : ProcessLocalImageArgs args.local_image collab.envAndroidProductOut = .ok v := by
          rw [ProcessLocalImageArgs.eq_def, hnone, hv]
          rfl
        rw [hl]
      · intro hv
        rw [ProcessImageArgs, if_neg hli]
        have hl : ProcessLocalImageArgs args.local_image collab.envAndroidProductOut =
            .error (.getAndroidBuildEnvVar
              (str "Could not get environment var: ANDROID_PRODUCT_OUT")) := by
          rw [ProcessLocalImageArgs.eq_def, hnone, hv]
          rfl
        rw [hl]

/-- Counterexample to C4 as stated: the claim says an empty-string sentinel
value of the local-image flag selects LOCAL with path inference, but
`_ProcessImageArgs` treats `args.local_image == ""` as "flag not supplied"
and resolves `image_source` to REMOTE (the LOCAL-with-inference sentinel is
`None`). -/
theorem C4_counterexample :
    (ProcessImageArgs
       ⟨some [], some (str "b"), some (str "t"), some (str "i"),
        str "cuttlefish", str "phone"⟩
       ⟨.error (.otherErr (str "x")), fun _ _ => .error (.otherErr (str "y")),
        some (str "/out")⟩).1 =
      .ok ⟨IMAGE_SRC_REMOTE, none, some ⟨str "b", str "t", str "i"⟩⟩ ∧
    IMAGE_SRC_REMOTE ≠ IMAGE_SRC_LOCAL := by
  constructor <;> decide

/-- Witness for C4 at a `None` flag with the environment variable set, and
at an explicit user path. -/
theorem C4_image_source_resolution_witness :
    ((none : Option Str) ≠ some [] ∧
      (ProcessImageArgs
        ⟨none, none, none, none, str "cuttlefish", str "phone"⟩
        ⟨.error (.otherErr (str "x")), fun _ _ => .error (.otherErr (str "y")),
         some (str "/out")⟩).1 = .ok ⟨IMAGE_SRC_LOCAL, some (str "/out"), none⟩) ∧
    ((some (str "/img") : Option Str) ≠ some [] ∧
      (ProcessImageArgs
        ⟨some (str "/img"), none, none, none, str "cuttlefish", str "phone"⟩
        ⟨.error (.otherErr (str "x")), fun _ _ => .error (.otherErr (str "y")),
         none⟩).1 = .ok ⟨IMAGE_SRC_LOCAL, some (str "/img"), none⟩) :=
  ⟨⟨by decide,
    ((C4_image_source_resolution
        ⟨none, none, none, none, str "cuttlefish", str "phone"⟩
        ⟨.error (.otherErr (str "x")), fun _ _ => .error (.otherErr (str "y")),
         some (str "/out")⟩).2 (by decide)).2.2 rfl |>.1 (str "/out") rfl⟩,
   ⟨by decide,
    ((C4_image_source_resolution
        ⟨some (str "/img"), none, none, none, str "cuttlefish", str "phone"⟩
        ⟨.error (.otherErr (str "x")), fun _ _ => .error (.otherErr (str "y")),
         none⟩).2 (by decide)).2.1 (str "/img") rfl (by decide)⟩⟩

/-- C6: every successfully constructed image specification populates exactly
one of the remote build coordinates and the local image path, and which one
is determined by `image_source`: remote coordinates iff REMOTE, local path
iff LOCAL, never both. -/
theorem C6_exactly_one_image_field (args : SpecArgs) (collab : BuildCollab) (s : ImageState)
    (h : (ProcessImageArgs args collab).1 = .ok s) :
    (s.image_source = IMAGE_SRC_REMOTE ∧ s.remote_image.isSome = true ∧
      s.local_image_dir = none) ∨
    (s.image_source = IMAGE_SRC_LOCAL ∧ s.local_image_dir.isSome = true ∧
      s.remote_image = none) := by
  rw [ProcessImageArgs] at h
  by_cases hli : args.local_image = some []
  · rw [if_pos hli] at h
    cases hpr : ProcessRemoteBuildArgs args collab with
    | mk fst snd =>
      rw [hpr] at h
      cases fst with
      | error e => cases h
      | ok ri =>
        simp only [Except.ok.injEq] at h
        rw [← h]
        exact Or.inl ⟨rfl, rfl, rfl⟩
  · rw [if_neg hli] at h
    cases hl : ProcessLocalImageArgs args.local_image collab.envAndroidProductOut <;>
      rw [hl] at h
    · cases h
    · simp only [Except.ok.injEq] at h
      rw [← h]
      exact Or.inr ⟨rfl, rfl, rfl⟩

/-- Witness for C6 on both the remote and the local path. -/
theorem C6_exactly_one_image_field_witness :
    ((ProcessImageArgs
        ⟨some [], some (str "b"), some (str "t"), some (str "i"),
         str "cuttlefish", str "phone"⟩
        ⟨.error (.otherErr (str "x")), fun _ _ => .error (.otherErr (str "y")),
         none⟩).1 =
      .ok ⟨IMAGE_SRC_REMOTE, none, some ⟨str "b", str "t", str "i"⟩⟩) ∧
    (((⟨IMAGE_SRC_REMOTE, none, some ⟨str "b", str "t", str "i"⟩⟩ : ImageState).image_source =
        IMAGE_SRC_REMOTE ∧
      (⟨IMAGE_SRC_REMOTE, none, some ⟨str "b", str "t", str "i"⟩⟩ : ImageState).remote_image.isSome
        = true ∧
      (⟨IMAGE_SRC_REMOTE, none, some ⟨str "b", str "t", str "i"⟩⟩ : ImageState).local_image_dir
        = none) ∨
    ((⟨IMAGE_SRC_REMOTE, none, some ⟨str "b", str "t", str "i"⟩⟩ : ImageState).image_source =
        IMAGE_SRC_LOCAL ∧
      (⟨IMAGE_SRC_REMOTE, none, some ⟨str "b", str "t", str "i"⟩⟩ : ImageState).local_image_dir.isSome
        = true ∧
      (⟨IMAGE_SRC_REMOTE, none, some ⟨str "b", str "t", str "i"⟩⟩ : ImageState).remote_image
        = none)) :=
  ⟨by decide,
   C6_exactly_one_image_field
     ⟨some [], some (str "b"), some (str "t"), some (str "i"), str "cuttlefish", str "phone"⟩
     ⟨.error (.otherErr (str "x")), fun _ _ => .error (.otherErr (str "y")), none⟩
     ⟨IMAGE_SRC_REMOTE, none, some ⟨str "b", str "t", str "i"⟩⟩ (by decide)⟩

/- ------------------------------------------------------------------ -/
/- Lemmas about the common creation driver. -/

theorem poolCreateAux_ok (f : Factory) (names : Nat → Str) :
    ∀ (idxs : List Nat) (acc : List AndroidVirtualDevice),
    (∀ i ∈ idxs, f.create i = .ok (names i)) →
    poolCreateAux f idxs acc =
      (.ok (acc ++ idxs.map (fun i => ⟨f.getIP (names i), names i⟩)), idxs)
  | [], acc, _ => by simp [poolCreateAux]
  | i :: rest, acc, hok => by
    rw [poolCreateAux, hok i (List.mem_cons_self _ _)]
    have hrec := poolCreateAux_ok f names rest
      (acc ++ [(⟨f.getIP (names i), names i⟩ : AndroidVirtualDevice)])
      (fun j hj => hok j (List.mem_cons_of_mem _ hj))
    show (match poolCreateAux f rest
            (acc ++ [(⟨f.getIP (names i), names i⟩ : AndroidVirtualDevice)]) with
          | (res, tr) => (res, i :: tr)) = _
    rw [hrec]
    simp

theorem poolCreateAux_error (f : Factory) (names : Nat → Str) (e : Str) :
    ∀ (pre : List Nat) (i : Nat) (post : List Nat) (acc : List AndroidVirtualDevice),
    (∀ j ∈ pre, f.create j = .ok (names j)) → f.create i = .error e →
    poolCreateAux f (pre ++ i :: post) acc = (.error e, pre ++ [i])
  | [], i, post, acc, _, herr => by
    rw [List.nil_append, poolCreateAux, herr]
    rfl
  | j :: pre, i, post, acc, hok, herr => by
    rw [List.cons_append, poolCreateAux, hok j (List.mem_cons_self _ _)]
    have hrec := poolCreateAux_error f names e pre i post
      (acc ++ [(⟨f.getIP (names j), names j⟩ : AndroidVirtualDevice)])
      (fun q hq => hok q (List.mem_cons_of_mem _ hq)) herr
    show (match poolCreateAux f (pre ++ i :: post)
            (acc ++ [(⟨f.getIP (names j), names j⟩ : AndroidVirtualDevice)]) with
          | (res, tr) => (res, j :: tr)) = _
    rw [hrec]
    rfl

theorem waitFold_isEmpty (f : Factory) :
    ∀ (devices : List AndroidVirtualDevice) (acc : List (Str × Str)),
    (devices.foldl
      (fun fails d =>
        match f.waitForBoot d.instance_name with
        | none => fails
        | some e => dictInsert fails d.instance_name e) acc).isEmpty =
      (acc.isEmpty && devices.all (fun d => (f.waitForBoot d.instance_name).isNone))
  | [], acc => by simp
  | d :: t, acc => by
    rw [List.foldl_cons, List.all_cons]
    cases hb : f.waitForBoot d.instance_name with
    | none =>
      rw [waitFold_isEmpty f t acc]
      rfl
    | some e =>
      rw [waitFold_isEmpty f t (dictInsert acc d.instance_name e),
        isEmpty_false_of_ne_nil (dictInsert_ne_nil acc d.instance_name e)]
      simp

theorem waitFold_hasKey (f : Factory) :
    ∀ (devices : List AndroidVirtualDevice) (acc : List (Str × Str)) (nm : Str),
    dictHasKey
      (devices.foldl
        (fun fails d =>
          match f.waitForBoot d.instance_name with
          | none => fails
          | some e => dictInsert fails d.instance_name e) acc) nm =
      (dictHasKey acc nm ||
        devices.any (fun d =>
          decide (d.instance_name = nm) && (f.waitForBoot d.instance_name).isSome))
  | [], acc, nm => by simp
  | d :: t, acc, nm => by
    rw [List.foldl_cons, List.any_cons]
    cases hb : f.waitForBoot d.instance_name with
    | none =>
      rw [waitFold_hasKey f t acc nm]
      simp
    | some e =>
      rw [waitFold_hasKey f t (dictInsert acc d.instance_name e) nm, dictHasKey_insert]
      simp only [Option.isSome_some, Bool.and_true, Bool.or_assoc]

theorem dictInsert_forall {Q : Str × Str → Prop} :
    ∀ {d : List (Str × Str)} {k v : Str},
    (∀ p ∈ d, Q p) → Q (k, v) → ∀ p ∈ dictInsert d k v, Q p
  | [], k, v, _, hkv => by
    intro p hp
    rw [dictInsert] at hp
    rcases List.mem_singleton.mp hp with rfl
    exact hkv
  | q :: t, k, v, hall, hkv => by
    intro p hp
    rw [dictInsert] at hp
    rcases q with ⟨k', v'⟩
    by_cases hq : k' = k
    · rw [if_pos hq] at hp
      rcases List.mem_cons.mp hp with rfl | hp2
      · exact hkv
      · exact hall _ (List.mem_cons_of_mem _ hp2)
    · rw [if_neg hq] at hp
      rcases List.mem_cons.mp hp with rfl | hp2
      · exact hall _ (List.mem_cons_self _ _)
      · exact dictInsert_forall (fun r hr => hall r (List.mem_cons_of_mem _ hr)) hkv p hp2

theorem waitFold_values (f : Factory) :
    ∀ (devices : List AndroidVirtualDevice) (acc : List (Str × Str)),
    (∀ p ∈ acc, f.waitForBoot p.1 = some p.2) →
    ∀ p ∈ devices.foldl
      (fun fails d =>
        match f.waitForBoot d.instance_name with
        | none => fails
        | some e => dictInsert fails d.instance_name e) acc,
      f.waitForBoot p.1 = some p.2
  | [], acc, hacc => hacc
  | d :: t, acc, hacc => by
    rw [List.foldl_cons]
    cases hb : f.waitForBoot d.instance_name with
    | none => exact waitFold_values f t acc hacc
    | some e =>
      exact waitFold_values f t (dictInsert acc d.instance_name e)
        (dictInsert_forall hacc hb)

theorem waitForBoot_hasKey_of_mem (f : Factory) (devices : List AndroidVirtualDevice)
    (d : AndroidVirtualDevice) (hd : d ∈ devices) :
    dictHasKey (DevicePool.waitForBoot f devices) d.instance_name =
      (f.waitForBoot d.instance_name).isSome := by
  unfold DevicePool.waitForBoot
  rw [waitFold_hasKey]
  show (false || _) = _
  rw [Bool.false_or]
  cases hb : (f.waitForBoot d.instance_name).isSome with
  | true =>
    rw [List.any_eq_true]
    exact ⟨d, hd, by rw [hb, decide_eq_true rfl]; rfl⟩
  | false =>
    rw [List.any_eq_false]
    intro d' hd'
    by_cases hn : d'.instance_name = d.instance_name
    · rw [hn, hb, decide_eq_true rfl]
      simp
    · rw [decide_eq_false hn]
      simp

theorem waitForBoot_get_of_boot (f : Factory) (devices : List AndroidVirtualDevice)
    (d : AndroidVirtualDevice) (hd : d ∈ devices) (e : Str)
    (hb : f.waitForBoot d.instance_name = some e) :
    dictGet (DevicePool.waitForBoot f devices) d.instance_name = e := by
  refine dictGet_all_same _ _ _ (fun p hp hpk => ?_) ?_
  · have := waitFold_values f devices [] (by intro p hp; cases hp) p hp
    rw [hpk, hb] at this
    injection this with h2
    exact h2.symm
  · rw [waitForBoot_hasKey_of_mem f devices d hd, hb]
    rfl

theorem reportLoop_spec (rip : Bool) (f : Factory) (fails : List (Str × Str)) :
    ∀ (devices : List AndroidVirtualDevice) (r : Report),
    (∀ d ∈ devices,
      dictHasKey fails d.instance_name = (f.waitForBoot d.instance_name).isSome ∧
      dictGet fails d.instance_name = (f.waitForBoot d.instance_name).getD []) →
    devices.foldl (reportDevice rip fails) r =
      { r with
        data := r.data ++ devices.map (fun d =>
          (if (f.waitForBoot d.instance_name).isSome then str "devices_failing_boot"
           else str "devices",
           ⟨if rip then d.ip.internal else d.ip.external, d.instance_name⟩)),
        errors := r.errors ++ devices.filterMap (fun d => f.waitForBoot d.instance_name) }
  | [], r, _ => by simp
  | d :: t, r, hall => by
    rw [List.foldl_cons, List.map_cons, List.filterMap_cons]
    have hd := hall d (List.mem_cons_self _ _)
    have hstep : reportDevice rip fails r d =
        { r with
          data := r.data ++ [(if (f.waitForBoot d.instance_name).isSome then
              str "devices_failing_boot" else str "devices",
            ⟨if rip then d.ip.internal else d.ip.external, d.instance_name⟩)],
          errors := r.errors ++ (match f.waitForBoot d.instance_name with
            | none => [] | some e => [e]) } := by
      cases hb : f.waitForBoot d.instance_name with
      | none =>
        rw [hb] at hd
        have h1 : dictHasKey fails d.instance_name = false := hd.1
        simp only [reportDevice, h1, Bool.false_eq_true, if_false, Report.addData,
          Option.isSome_none, List.append_nil]
      | some e =>
        rw [hb] at hd
        have h1 : dictHasKey fails d.instance_name = true := hd.1
        have h2 : dictGet fails d.instance_name = e := hd.2
        simp only [reportDevice, h1, if_true, Report.addData, Report.addError, h2,
          Option.isSome_some]
    rw [hstep]
    rw [reportLoop_spec rip f fails t _ (fun q hq => hall q (List.mem_cons_of_mem _ hq))]
    cases hb : f.waitForBoot d.instance_name <;> simp [hb]

theorem filter_map_entries (key : Str) (keyOf : AndroidVirtualDevice → Str)
    (ddOf : AndroidVirtualDevice → DeviceData) :
    ∀ devices : List AndroidVirtualDevice,
    ((devices.map (fun d => (keyOf d, ddOf d))).filter (fun p => p.1 = key)).map
        (fun p => p.2) =
      (devices.filter (fun d => keyOf d = key)).map ddOf
  | [] => rfl
  | d :: t => by
    rw [List.map_cons, List.filter_cons, List.filter_cons]
    by_cases h : keyOf d = key
    · simp only [decide_eq_true h, if_true, List.map_cons,
        filter_map_entries key keyOf ddOf t]
    · simp only [decide_eq_false h, Bool.false_eq_true, if_false,
        filter_map_entries key keyOf ddOf t]

/-- The device list the driver builds when every `CreateInstance()` call
succeeds with the given instance names. -/
def mkDevices (f : Factory) (names : Nat → Str) (num : Nat) : List AndroidVirtualDevice :=
  (List.range num).map (fun i => ⟨f.getIP (names i), names i⟩)

theorem createDevices_pool_ok (f : Factory) (names : Nat → Str) (num : Nat)
    (hok : ∀ i, i < num → f.create i = .ok (names i)) :
    DevicePool.createDevices f num = (.ok (mkDevices f names num), List.range num) := by
  unfold DevicePool.createDevices mkDevices
  rw [poolCreateAux_ok f names (List.range num) []
    (fun i hi => hok i (List.mem_range.mp hi))]
  simp

theorem waitForBoot_pointwise (f : Factory) (devices : List AndroidVirtualDevice) :
    ∀ d ∈ devices,
      dictHasKey (DevicePool.waitForBoot f devices) d.instance_name =
        (f.waitForBoot d.instance_name).isSome ∧
      dictGet (DevicePool.waitForBoot f devices) d.instance_name =
        (f.waitForBoot d.instance_name).getD [] := by
  intro d hd
  refine ⟨waitForBoot_hasKey_of_mem f devices d hd, ?_⟩
  cases hb : f.waitForBoot d.instance_name with
  | none =>
    have hk : dictHasKey (DevicePool.waitForBoot f devices) d.instance_name = false := by
      rw [waitForBoot_hasKey_of_mem f devices d hd, hb]
      rfl
    rw [dictGet_not_hasKey _ _ hk]
    rfl
  | some e =>
    rw [waitForBoot_get_of_boot f devices d hd e hb]
    rfl

theorem createDevices_ok_report (cmd : Str) (f : Factory) (num : Nat) (names : Nat → Str)
    (rip : Bool) (hok : ∀ i, i < num → f.create i = .ok (names i)) :
    (CreateDevices cmd (.ok ()) f num rip).1 =
      { command := cmd,
        status := if (mkDevices f names num).all
            (fun d => (f.waitForBoot d.instance_name).isNone) then .SUCCESS else .BOOT_FAIL,
        data := (mkDevices f names num).map (fun d =>
          (if (f.waitForBoot d.instance_name).isSome then str "devices_failing_boot"
           else str "devices",
           ⟨if rip then d.ip.internal else d.ip.external, d.instance_name⟩)),
        errors := (mkDevices f names num).filterMap
          (fun d => f.waitForBoot d.instance_name) } := by
  unfold CreateDevices
  rw [createDevices_pool_ok f names num hok]
  show (((mkDevices f names num).foldl
      (reportDevice rip (DevicePool.waitForBoot f (mkDevices f names num)))
      (Report.setStatus ⟨cmd, .unset, [], []⟩
        (if (DevicePool.waitForBoot f (mkDevices f names num)).isEmpty then .SUCCESS
         else .BOOT_FAIL))), List.range num).1 = _
  rw [reportLoop_spec rip f (DevicePool.waitForBoot f (mkDevices f names num))
    (mkDevices f names num) _ (waitForBoot_pointwise f (mkDevices f names num))]
  have hie : (DevicePool.waitForBoot f (mkDevices f names num)).isEmpty =
      (mkDevices f names num).all (fun d => (f.waitForBoot d.instance_name).isNone) := by
    unfold DevicePool.waitForBoot
    rw [waitFold_isEmpty]
    rfl
  rw [Report.setStatus, hie]
  simp

/-- C1 (amended): when key-pair setup succeeds and every `CreateInstance()`
call returns an instance (with the i-th device named `names i`), the
returned Report has status SUCCESS iff no device's boot-wait raised a
`DeviceBootError` (otherwise BOOT_FAIL); the boot-succeeded devices appear
under the `devices` data key and the boot-failed devices under the
`devices_failing_boot` data key, each in creation order, with the failed
devices' error texts appended to the report's top-level error list in the
same order; and one device's boot failure never prevents the boot-wait
outcome of every other device from being reported.  (When setup or a
creation call raises a `DriverError`, the report instead carries that
error with status FAIL — see the counterexample.) -/
theorem C1_boot_wait_aggregation (cmd : Str) (f : Factory) (num : Nat) (names : Nat → Str)
    (rip : Bool) (hok : ∀ i, i < num → f.create i = .ok (names i)) :
    ((CreateDevices cmd (.ok ()) f num rip).1.status = .SUCCESS ↔
      ∀ d ∈ mkDevices f names num, f.waitForBoot d.instance_name = none) ∧
    ((CreateDevices cmd (.ok ()) f num rip).1.status = .SUCCESS ∨
      (CreateDevices cmd (.ok ()) f num rip).1.status = .BOOT_FAIL) ∧
    (CreateDevices cmd (.ok ()) f num rip).1.dataAt (str "devices") =
      ((mkDevices f names num).filter
          (fun d => (f.waitForBoot d.instance_name).isNone)).map
        (fun d => ⟨if rip then d.ip.internal else d.ip.external, d.instance_name⟩) ∧
    (CreateDevices cmd (.ok ()) f num rip).1.dataAt (str "devices_failing_boot") =
      ((mkDevices f names num).filter
          (fun d => (f.waitForBoot d.instance_name).isSome)).map
        (fun d => ⟨if rip then d.ip.internal else d.ip.external, d.instance_name⟩) ∧
    (CreateDevices cmd (.ok ()) f num rip).1.errors =
      (mkDevices f names num).filterMap (fun d => f.waitForBoot d.instance_name) := by
  rw [createDevices_ok_report cmd f num names rip hok]
  refine ⟨?_, ?_, ?_, ?_, rfl⟩
  · show (if (mkDevices f names num).all _ then Status.SUCCESS else Status.BOOT_FAIL) =
      Status.SUCCESS ↔ _
    by_cases hall : (mkDevices f names num).all
        (fun d => (f.waitForBoot d.instance_name).isNone) = true
    · rw [if_pos hall]
      simp only [true_iff]
      intro d hd
      have := List.all_eq_true.mp hall d hd
      exact Option.isNone_iff_eq_none.mp this
    · rw [if_neg hall]
      constructor
      · intro h
        cases h
      · intro h
        exfalso
        refine hall (List.all_eq_true.mpr (fun d hd => ?_))
        rw [h d hd]
        rfl
  · show ((if _ then Status.SUCCESS else Status.BOOT_FAIL) = Status.SUCCESS ∨
      (if _ then Status.SUCCESS else Status.BOOT_FAIL) = Status.BOOT_FAIL)
    split
    · exact Or.inl rfl
    · exact Or.inr rfl
  · show Report.dataAt _ _ = _
    unfold Report.dataAt
    rw [filter_map_entries]
    rw [List.filter_congr (fun d _ => ?_)]
    cases hb : f.waitForBoot d.instance_name with
    | none => rfl
    | some e => rfl
  · show Report.dataAt _ _ = _
    unfold Report.dataAt
    rw [filter_map_entries]
    rw [List.filter_congr (fun d _ => ?_)]
    cases hb : f.waitForBoot d.instance_name with
    | none => rfl
    | some e => rfl

/-- A factory whose three devices are created fine and whose device `'1'`
(the second created) fails its boot-wait. -/
def c1Factory : Factory :=
  ⟨fun i => .ok [dChar i], fun _ => ⟨str "10.0.0.2", str "35.1.1.1"⟩,
   fun nm => if nm = ['1'] then some (str "Device boot timeout") else none⟩

/-- Witness for C1: three devices, the second one failing its boot-wait. -/
theorem C1_boot_wait_aggregation_witness :
    (∀ i, i < 3 → c1Factory.create i = .ok ((fun i => [dChar i]) i)) ∧
    (((CreateDevices (str "create_cf") (.ok ()) c1Factory 3 false).1.status = .SUCCESS ↔
       ∀ d ∈ mkDevices c1Factory (fun i => [dChar i]) 3,
         c1Factory.waitForBoot d.instance_name = none) ∧
     ((CreateDevices (str "create_cf") (.ok ()) c1Factory 3 false).1.status = .SUCCESS ∨
       (CreateDevices (str "create_cf") (.ok ()) c1Factory 3 false).1.status = .BOOT_FAIL) ∧
     (CreateDevices (str "create_cf") (.ok ()) c1Factory 3 false).1.dataAt (str "devices") =
       ((mkDevices c1Factory (fun i => [dChar i]) 3).filter
           (fun d => (c1Factory.waitForBoot d.instance_name).isNone)).map
         (fun d => ⟨if false then d.ip.internal else d.ip.external, d.instance_name⟩) ∧
     (CreateDevices (str "create_cf") (.ok ()) c1Factory 3 false).1.dataAt
         (str "devices_failing_boot") =
       ((mkDevices c1Factory (fun i => [dChar i]) 3).filter
           (fun d => (c1Factory.waitForBoot d.instance_name).isSome)).map
         (fun d => ⟨if false then d.ip.internal else d.ip.external, d.instance_name⟩) ∧
     (CreateDevices (str "create_cf") (.ok ()) c1Factory 3 false).1.errors =
       (mkDevices c1Factory (fun i => [dChar i]) 3).filterMap
         (fun d => c1Factory.waitForBoot d.instance_name)) :=
  ⟨by decide,
   C1_boot_wait_aggregation (str "create_cf") c1Factory 3 (fun i => [dChar i]) false
     (by decide)⟩

/-- A factory whose `CreateInstance()` always raises a `DriverError`. -/
def c1FailFactory : Factory :=
  ⟨fun _ => .error (str "gce quota exceeded"),
   fun _ => ⟨str "10.0.0.2", str "35.1.1.1"⟩, fun _ => none⟩

/-- Counterexample to C1 as stated: an invocation in which `CreateInstance`
raises records zero boot failures (boot-wait never runs, no failing-boot
data), yet the report status is FAIL — neither SUCCESS nor BOOT_FAIL — so
"SUCCESS iff zero boot failures, otherwise BOOT_FAIL" is false over all
invocations. -/
theorem C1_counterexample :
    (CreateDevices (str "create_cf") (.ok ()) c1FailFactory 1 false).1.status = .FAIL ∧
    (CreateDevices (str "create_cf") (.ok ()) c1FailFactory 1 false).1.dataAt
      (str "devices_failing_boot") = [] ∧
    (CreateDevices (str "create_cf") (.ok ()) c1FailFactory 1 false).1.data = [] ∧
    Status.FAIL ≠ Status.SUCCESS ∧ Status.FAIL ≠ Status.BOOT_FAIL := by
  refine ⟨?_, ?_, ?_, ?_, ?_⟩ <;> decide

/-- C2 (amended): when `CreateInstance()` raises a `DriverError` for
device i (devices before it succeeding), the error is caught at the driver
level and converted into a top-level error entry with status FAIL — but
the creation loop aborts: `CreateInstance()` is invoked exactly for
devices 0..i, so devices i+1..N-1 of the same invocation are neither
attempted nor reported. -/
theorem C2_create_error_aborts_loop (cmd : Str) (f : Factory) (num : Nat) (names : Nat → Str)
    (rip : Bool) (i : Nat) (e : Str) (hi : i < num)
    (hpre : ∀ j, j < i → f.create j = .ok (names j))
    (hfail : f.create i = .error e) :
    (CreateDevices cmd (.ok ()) f num rip).1 =
      { command := cmd, status := .FAIL, data := [], errors := [e] } ∧
    (CreateDevices cmd (.ok ()) f num rip).2 = List.range (i + 1) ∧
    ∀ j, i < j → j ∉ (CreateDevices cmd (.ok ()) f num rip).2 := by
  have hsplit : List.range num = List.range i ++ i :: List.range' (i + 1) (num - i - 1) := by
    rw [List.range_eq_range', List.range_eq_range']
    have h1 := List.range'_append 0 i (num - i) 1
    rw [Nat.zero_add, Nat.one_mul] at h1
    have h2 : num - i + i = num := by omega
    rw [h2] at h1
    rw [← h1]
    congr 1
    have h3 : num - i = (num - i - 1) + 1 := by omega
    rw [h3, Nat.add_sub_cancel]
    rfl
  have hpool : DevicePool.createDevices f num = (.error e, List.range (i + 1)) := by
    unfold DevicePool.createDevices
    rw [hsplit, poolCreateAux_error f names e (List.range i) i _ []
      (fun j hj => hpre j (List.mem_range.mp hj)) hfail]
    rw [← List.range_succ]
  have hmain : CreateDevices cmd (.ok ()) f num rip =
      ({ command := cmd, status := .FAIL, data := [], errors := [e] }, List.range (i + 1)) := by
    unfold CreateDevices
    rw [hpool]
    rfl
  rw [hmain]
  refine ⟨rfl, rfl, fun j hj hmem => ?_⟩
  rw [List.mem_range] at hmem
  omega

/-- A factory whose first `CreateInstance()` succeeds and whose second
raises. -/
def c2Factory : Factory :=
  ⟨fun i => if i = 0 then .ok (str "ins-1") else .error (str "create failed"),
   fun _ => ⟨str "10.0.0.2", str "35.1.1.1"⟩, fun _ => none⟩

/-- Witness for C2: three requested devices, failure at device index 1. -/
theorem C2_create_error_aborts_loop_witness :
    ((1 : Nat) < 3 ∧ (∀ j, j < 1 → c2Factory.create j = .ok ((fun _ => str "ins-1") j)) ∧
      c2Factory.create 1 = .error (str "create failed")) ∧
    ((CreateDevices (str "create_cf") (.ok ()) c2Factory 3 false).1 =
        { command := str "create_cf", status := .FAIL, data := [],
          errors := [str "create failed"] } ∧
      (CreateDevices (str "create_cf") (.ok ()) c2Factory 3 false).2 = List.range 2 ∧
      ∀ j, 1 < j → j ∉ (CreateDevices (str "create_cf") (.ok ()) c2Factory 3 false).2) :=
  ⟨⟨by decide, by decide, by decide⟩,
   C2_create_error_aborts_loop (str "create_cf") c2Factory 3 (fun _ => str "ins-1") false 1
     (str "create failed") (by decide) (by decide) (by decide)⟩

/-- A factory whose every `CreateInstance()` raises. -/
def c2FailFirst : Factory :=
  ⟨fun _ => .error (str "boom"), fun _ => ⟨[], []⟩, fun _ => none⟩

/-- Counterexample to C2 as stated: with two devices requested and device 0
raising, device 1 is never attempted (the invocation trace is `[0]`, not
`[0, 1]`) and nothing is reported for it, so the failure of device 0 does
prevent attempting and reporting the remaining device. -/
theorem C2_counterexample :
    (CreateDevices (str "create_cf") (.ok ()) c2FailFirst 2 false).2 = [0] ∧
    (1 : Nat) ∉ (CreateDevices (str "create_cf") (.ok ()) c2FailFirst 2 false).2 ∧
    (CreateDevices (str "create_cf") (.ok ()) c2FailFirst 2 false).1.data = [] ∧
    (CreateDevices (str "create_cf") (.ok ()) c2FailFirst 2 false).1.errors =
      [str "boom"] := by
  refine ⟨?_, ?_, ?_, ?_⟩ <;> decide

theorem scanIds_spec (env : LocalAvdEnv) : ∀ ids : List Nat,
    (∀ ev ∈ (scanIds env ids).2, ∃ i, ev = LockEv.lockIfNotInUse i) ∧
    (∀ res, (scanIds env ids).1 = some res → env.lockIfNotInUse res = true) ∧
    (∀ i, LockEv.lockIfNotInUse i ∈ (scanIds env ids).2 → env.lockIfNotInUse i = true →
      (scanIds env ids).1 = some i)
  | [] => by
    refine ⟨fun ev hev => ?_, fun res hres => ?_, fun i hi _ => ?_⟩
    · cases hev
    · cases hres
    · cases hi
  | i :: rest => by
    obtain ⟨ih1, ih2, ih3⟩ := scanIds_spec env rest
    by_cases h : env.lockIfNotInUse i = true
    · have hs : scanIds env (i :: rest) = (some i, [.lockIfNotInUse i]) := by
        rw [scanIds, if_pos h]
      rw [hs]
      refine ⟨fun ev hev => ?_, fun res hres => ?_, fun j hj hjt => ?_⟩
      · rcases List.mem_singleton.mp hev with rfl
        exact ⟨i, rfl⟩
      · injection hres with h2
        rw [← h2]
        exact h
      · rcases List.mem_singleton.mp hj with h3
        injection h3 with h4
        rw [h4]
    · have hs : scanIds env (i :: rest) =
          ((scanIds env rest).1, .lockIfNotInUse i :: (scanIds env rest).2) := by
        rw [scanIds, if_neg h]
      rw [hs]
      refine ⟨fun ev hev => ?_, ih2, fun j hj hjt => ?_⟩
      · rcases List.mem_cons.mp hev with rfl | hev2
        · exact ⟨i, rfl⟩
        · exact ih1 ev hev2
      · rcases List.mem_cons.mp hj with h3 | hj2
        · injection h3 with h4
          rw [h4] at hjt
          exact absurd hjt h
        · exact ih3 j hj2 hjt

/-- The lock events a `_CreateAVD` run emits before its `try` body: either
the single explicit `Lock` on the requested id, or the auto-selection scan
whose only successful `LockIfNotInUse` is the chosen id. -/
def prefixOk (env : LocalAvdEnv) (tr0 : List LockEv) (id : Nat) : Prop :=
  (∀ ev ∈ tr0, (∃ j, ev = LockEv.lock j) ∨ ∃ j, ev = LockEv.lockIfNotInUse j) ∧
  (∀ j, LockEv.lockIfNotInUse j ∈ tr0 → env.lockIfNotInUse j = true → j = id) ∧
  (∀ j, LockEv.lock j ∈ tr0 → j = id ∧ env.lockAcquire id = true)

theorem createAVD_shape (env : LocalAvdEnv) :
    (CreateAVDLocal env).2 = [] ∨
    (∃ id, (CreateAVDLocal env).2 = [LockEv.lock id] ∧ env.lockAcquire id = false) ∨
    ((∀ ev ∈ (CreateAVDLocal env).2, ∃ j, ev = LockEv.lockIfNotInUse j) ∧
      (∀ j, LockEv.lockIfNotInUse j ∈ (CreateAVDLocal env).2 →
        env.lockIfNotInUse j = false)) ∨
    (∃ id tr0, prefixOk env tr0 id ∧
      (((CreateAVDLocal env).1 = .sysExit ∧
        (CreateAVDLocal env).2 = tr0 ++ [LockEv.setInUse id true, LockEv.unlock id]) ∨
       ((∃ e, (CreateAVDLocal env).1 = .exception e) ∧
        (CreateAVDLocal env).2 = tr0 ++ [LockEv.unlock id]) ∨
       ((∃ r, (CreateAVDLocal env).1 = .report r) ∧
        (CreateAVDLocal env).2 =
          tr0 ++ [LockEv.reportCreated, LockEv.setInUse id true, LockEv.unlock id]))) := by
  have hbody : ∀ id tr0, prefixOk env tr0 id →
      CreateAVDLocal env = createAvdBody env id tr0 →
      (∃ id tr0, prefixOk env tr0 id ∧
        (((CreateAVDLocal env).1 = .sysExit ∧
          (CreateAVDLocal env).2 = tr0 ++ [LockEv.setInUse id true, LockEv.unlock id]) ∨
         ((∃ e, (CreateAVDLocal env).1 = .exception e) ∧
          (CreateAVDLocal env).2 = tr0 ++ [LockEv.unlock id]) ∨
         ((∃ r, (CreateAVDLocal env).1 = .report r) ∧
          (CreateAVDLocal env).2 =
            tr0 ++ [LockEv.reportCreated, LockEv.setInUse id true, LockEv.unlock id]))) := by
    intro id tr0 hpre heq
    refine ⟨id, tr0, hpre, ?_⟩
    rw [heq]
    unfold createAvdBody
    by_cases hchk : env.checkRunningCvd = true
    · rw [if_neg (by rw [hchk]; decide)]
      cases hci : env.createInstance with
      | error e => exact Or.inr (Or.inl ⟨⟨e, rfl⟩, rfl⟩)
      | ok rep => exact Or.inr (Or.inr ⟨⟨rep, rfl⟩, rfl⟩)
    · rw [Bool.not_eq_true] at hchk
      rw [if_pos (by rw [hchk]; rfl)]
      exact Or.inl ⟨rfl, rfl⟩
  cases hplat : env.platformSupported with
  | false =>
    left
    unfold CreateAVDLocal
    rw [if_pos (by rw [hplat]; rfl)]
  | true =>
    have hplat2 : CreateAVDLocal env =
        (match env.getImageArtifacts with
         | .error e => (.exception e, [])
         | .ok _ =>
           if env.localInstanceId ≠ 0 then
             if env.lockAcquire env.localInstanceId then
               createAvdBody env env.localInstanceId [.lock env.localInstanceId]
             else
               (.report (Report.setStatus
                 (Report.addError ⟨str "create", .unset, [], []⟩
                   (str "Instance " ++ repr10 env.localInstanceId ++
                    str " is locked by another process.")) .FAIL),
                [.lock env.localInstanceId])
           else
             match scanIds env (List.range' 1 MAX_INSTANCE_ID) with
             | (some id, tr) => createAvdBody env id tr
             | (none, tr) =>
               (.report (Report.setStatus
                 (Report.addError ⟨str "create", .unset, [], []⟩ INSTANCES_IN_USE_MSG)
                 .FAIL), tr)) := by
      unfold CreateAVDLocal
      rw [if_neg (by rw [hplat]; decide)]
    cases hart : env.getImageArtifacts with
    | error e =>
      left
      rw [hplat2, hart]
    | ok paths =>
      rw [hart] at hplat2
      by_cases hid : env.localInstanceId = 0
      · rw [if_neg (by rw [hid]; exact fun hh => hh rfl)] at hplat2
        obtain ⟨s1, s2, s3⟩ := scanIds_spec env (List.range' 1 MAX_INSTANCE_ID)
        cases hscan : scanIds env (List.range' 1 MAX_INSTANCE_ID) with
        | mk res tr =>
          rw [hscan] at hplat2 s1 s2 s3
          cases res with
          | some winner =>
            exact Or.inr (Or.inr (Or.inr (hbody winner tr
              ⟨fun ev hev => Or.inr (s1 ev hev),
               fun j hj hjt => by
                 have := s3 j hj hjt
                 injection this with h2
                 exact h2.symm,
               fun j hj => by
                 obtain ⟨j', hj'⟩ := s1 _ hj
                 exact LockEv.noConfusion hj'⟩ hplat2)))
          | none =>
            refine Or.inr (Or.inr (Or.inl ?_))
            rw [hplat2]
            refine ⟨s1, fun j hj => ?_⟩
            by_cases hjt : env.lockIfNotInUse j = true
            · have := s3 j hj hjt
              cases this
            · rw [Bool.not_eq_true] at hjt
              exact hjt
      · rw [if_pos hid] at hplat2
        by_cases hacq : env.lockAcquire env.localInstanceId = true
        · rw [if_pos hacq] at hplat2
          refine Or.inr (Or.inr (Or.inr (hbody env.localInstanceId
            [.lock env.localInstanceId] ?_ hplat2)))
          refine ⟨fun ev hev => ?_, fun j hj _ => ?_, fun j hj => ?_⟩
          · rcases List.mem_singleton.mp hev with rfl
            exact Or.inl ⟨env.localInstanceId, rfl⟩
          · rcases List.mem_singleton.mp hj with h
            exact LockEv.noConfusion h
          · rcases List.mem_singleton.mp hj with h
            injection h with h2
            exact ⟨h2, hacq⟩
        · rw [if_neg hacq] at hplat2
          refine Or.inr (Or.inl ⟨env.localInstanceId, ?_, ?_⟩)
          · rw [hplat2]
          · rw [Bool.not_eq_true] at hacq
            exact hacq

/-- C9 (amended): every `_CreateAVD` run that acquires a local instance-id
lock (via `Lock` or a successful `LockIfNotInUse`) releases it as the very
last lock operation before the flow terminates, on every outcome (returned
report, propagated exception, or user-triggered `sys.exit`); and the lock
is marked in-use only with value True, which happens either after
`_CreateInstance` has produced its Report (creation path) or on the
user-declined-relaunch path just before `sys.exit` (where no report
exists — see the counterexample to the claim as stated). -/
theorem C9_lock_release_and_mark (env : LocalAvdEnv) :
    (∀ id,
      ((LockEv.lock id ∈ (CreateAVDLocal env).2 ∧ env.lockAcquire id = true) ∨
       (LockEv.lockIfNotInUse id ∈ (CreateAVDLocal env).2 ∧
        env.lockIfNotInUse id = true)) →
      ∃ pre, (CreateAVDLocal env).2 = pre ++ [LockEv.unlock id]) ∧
    (∀ id b, LockEv.setInUse id b ∈ (CreateAVDLocal env).2 →
      b = true ∧
      ((CreateAVDLocal env).1 = .sysExit ∨
       ∃ r pre, (CreateAVDLocal env).1 = .report r ∧
         (CreateAVDLocal env).2 =
           pre ++ [LockEv.reportCreated, LockEv.setInUse id true, LockEv.unlock id])) := by
  rcases createAVD_shape env with h0 | ⟨id0, htr, hacq⟩ | ⟨hall, hfalse⟩ |
    ⟨id0, tr0, hpre, hout⟩
  · refine ⟨fun id hyp => ?_, fun id b hm => ?_⟩
    · rcases hyp with ⟨hm, _⟩ | ⟨hm, _⟩ <;> rw [h0] at hm <;> cases hm
    · rw [h0] at hm
      cases hm
  · refine ⟨fun id hyp => ?_, fun id b hm => ?_⟩
    · rcases hyp with ⟨hm, hacq2⟩ | ⟨hm, _⟩ <;> rw [htr] at hm <;>
        rcases List.mem_singleton.mp hm with h2
      · injection h2 with h3
        rw [h3] at hacq2
        rw [hacq] at hacq2
        cases hacq2
      · exact LockEv.noConfusion h2
    · rw [htr] at hm
      rcases List.mem_singleton.mp hm with h2
      exact LockEv.noConfusion h2
  · refine ⟨fun id hyp => ?_, fun id b hm => ?_⟩
    · rcases hyp with ⟨hm, _⟩ | ⟨hm, htru⟩
      · obtain ⟨j, hj⟩ := hall _ hm
        exact LockEv.noConfusion hj
      · rw [hfalse id hm] at htru
        cases htru
    · obtain ⟨j, hj⟩ := hall _ hm
      exact LockEv.noConfusion hj
  · rcases hout with ⟨hsys, htr⟩ | ⟨⟨e, hexc⟩, htr⟩ | ⟨⟨r, hrep⟩, htr⟩
    · refine ⟨fun id hyp => ?_, fun id b hm => ?_⟩
      · have hideq : id = id0 := by
          rcases hyp with ⟨hm, _⟩ | ⟨hm, htru⟩
          · rw [htr] at hm
            rcases List.mem_append.mp hm with hm0 | hms
            · exact (hpre.2.2 id hm0).1
            · simp at hms
          · rw [htr] at hm
            rcases List.mem_append.mp hm with hm0 | hms
            · exact hpre.2.1 id hm0 htru
            · simp at hms
        subst hideq
        exact ⟨tr0 ++ [LockEv.setInUse id true], by rw [htr, List.append_assoc]; rfl⟩
      · rw [htr] at hm
        rcases List.mem_append.mp hm with hm0 | hms
        · obtain ⟨j, hj⟩ | ⟨j, hj⟩ := hpre.1 _ hm0 <;> exact LockEv.noConfusion hj
        · simp only [List.mem_cons, List.not_mem_nil, or_false] at hms
          rcases hms with h2 | h2
          · injection h2 with h3 h4
            exact ⟨h4, Or.inl hsys⟩
          · exact LockEv.noConfusion h2
    · refine ⟨fun id hyp => ?_, fun id b hm => ?_⟩
      · have hideq : id = id0 := by
          rcases hyp with ⟨hm, _⟩ | ⟨hm, htru⟩
          · rw [htr] at hm
            rcases List.mem_append.mp hm with hm0 | hms
            · exact (hpre.2.2 id hm0).1
            · simp at hms
          · rw [htr] at hm
            rcases List.mem_append.mp hm with hm0 | hms
            · exact hpre.2.1 id hm0 htru
            · simp at hms
        subst hideq
        exact ⟨tr0, htr⟩
      · rw [htr] at hm
        rcases List.mem_append.mp hm with hm0 | hms
        · obtain ⟨j, hj⟩ | ⟨j, hj⟩ := hpre.1 _ hm0 <;> exact LockEv.noConfusion hj
        · rcases List.mem_singleton.mp hms with h2
          exact LockEv.noConfusion h2
    · refine ⟨fun id hyp => ?_, fun id b hm => ?_⟩
      · have hideq : id = id0 := by
          rcases hyp with ⟨hm, _⟩ | ⟨hm, htru⟩
          · rw [htr] at hm
            rcases List.mem_append.mp hm with hm0 | hms
            · exact (hpre.2.2 id hm0).1
            · simp at hms
          · rw [htr] at hm
            rcases List.mem_append.mp hm with hm0 | hms
            · exact hpre.2.1 id hm0 htru
            · simp at hms
        subst hideq
        exact ⟨tr0 ++ [LockEv.reportCreated, LockEv.setInUse id true],
          by rw [htr, List.append_assoc]; rfl⟩
      · rw [htr] at hm
        rcases List.mem_append.mp hm with hm0 | hms
        · obtain ⟨j, hj⟩ | ⟨j, hj⟩ := hpre.1 _ hm0 <;> exact LockEv.noConfusion hj
        · simp only [List.mem_cons, List.not_mem_nil, or_false] at hms
          rcases hms with h2 | h2 | h2
          · exact LockEv.noConfusion h2
          · injection h2 with h3 h4
            subst h3
            exact ⟨h4, Or.inr ⟨r, tr0, hrep, htr⟩⟩
          · exact LockEv.noConfusion h2

/-- An environment whose auto-selection takes instance id 1 and whose
creation succeeds. -/
def c9Env : LocalAvdEnv :=
  ⟨true, .ok (str "/img", str "/host"), 0, fun _ => false, fun i => i == 1, true,
   .ok ⟨str "create", .SUCCESS,
        [(str "devices", ⟨str "127.0.0.1", str "local-instance-1"⟩)], []⟩⟩

/-- Witness for C9 on the successful creation path with auto-selected id 1. -/
theorem C9_lock_release_and_mark_witness :
    ((LockEv.lockIfNotInUse 1 ∈ (CreateAVDLocal c9Env).2 ∧
        c9Env.lockIfNotInUse 1 = true) ∧
      ∃ pre, (CreateAVDLocal c9Env).2 = pre ++ [LockEv.unlock 1]) ∧
    (LockEv.setInUse 1 true ∈ (CreateAVDLocal c9Env).2 ∧
      (true = true ∧
        ((CreateAVDLocal c9Env).1 = .sysExit ∨
         ∃ r pre, (CreateAVDLocal c9Env).1 = .report r ∧
           (CreateAVDLocal c9Env).2 =
             pre ++ [LockEv.reportCreated, LockEv.setInUse 1 true, LockEv.unlock 1]))) :=
  ⟨⟨by decide, (C9_lock_release_and_mark c9Env).1 1 (Or.inr (by decide))⟩,
   ⟨by decide, (C9_lock_release_and_mark c9Env).2 1 true (by decide)⟩⟩

/-- The same environment with the user declining to relaunch the already
running instance. -/
def c9ExitEnv : LocalAvdEnv :=
  ⟨true, .ok (str "/img", str "/host"), 0, fun _ => false, fun i => i == 1, false,
   .ok ⟨str "create", .SUCCESS,
        [(str "devices", ⟨str "127.0.0.1", str "local-instance-1"⟩)], []⟩⟩

/-- Counterexample to C9 as stated: on the user-declined-relaunch path the
lock is marked in-use (`SetInUse(True)`) and then released, yet the flow
terminates through `sys.exit` without ever producing a Report, so "the
lock is marked in-use only after a Report has been produced" is false. -/
theorem C9_counterexample :
    CreateAVDLocal c9ExitEnv =
      (.sysExit, [LockEv.lockIfNotInUse 1, LockEv.setInUse 1 true, LockEv.unlock 1]) ∧
    LockEv.reportCreated ∉ (CreateAVDLocal c9ExitEnv).2 ∧
    ∀ r, (CreateAVDLocal c9ExitEnv).1 ≠ AvdOutcome.report r := by
  refine ⟨by decide, by decide, fun r h => ?_⟩
  rw [show (CreateAVDLocal c9ExitEnv).1 = .sysExit from by decide] at h
  cases h
